import Mathlib

/-!
# wifi.esp8266-nonos.cpp : the station / mesh state machines of `wifi.c`

A shallow embedding of `src/wifi.c` and `src/wifi.h`.

Conventions of the embedding.

* The file-level statics of `wifi.c` (`wifi_list`, `wifi_best_ssid`, `wifi`,
  `wifi_mesh`, `WIFI_state`, `WIFI_Mesh_state`, `mesh_prefix`, `mesh_postfix`,
  `mesh_status`) are the fields of one record, `Globals`, that every function
  takes and returns.
* A C string is represented by its contents before the terminating NUL, one
  `Char` per byte.  `os_strcpy` and `os_strcat` copy without any bound, as
  the source does; the capacity of the destination buffers is not checked by
  the code and is not part of the state.  Where the capacity matters the
  forms of the section "Buffer capacities" are used: a copy that overruns
  its buffer has no result there.
* The registry `wifi_list` is an array ended by an entry whose `ssid` is NULL.
  It is represented by the list of the entries that stand before that
  terminator, so the end of the list is the terminator.  A pointer into the
  registry (`wifi_best_ssid`, the result of `wifi_find_ssid`) is represented
  by the entry it points at, `none` being NULL.  `Globals.wifi_list` stands
  for a registry that has been installed; where it matters that the pointer
  `wifi_list` is NULL until `WIFI_InitializeEx` runs, the forms of the
  section "The registry pointer" are used.
* The SDK and the timer library are outside the repository.  Commands sent to
  them (driver calls, `countdown`, the owner callbacks) are recorded in
  order as a list of `Effect`; what they answer during one call of
  `WIFI_Run` (`expired`, `wifi_station_get_connect_status`, ...) is an
  input, `Env`.  Debug printing (`DTXT`) is left out.  The owner callbacks
  are recorded as events and are taken not to call back into the module.
-/

namespace Wifi

/-! ## Types of `wifi.h` and `wifi.c` -/

/-- The enum `WIFI_Mode` of `wifi.h`. -/
inductive WIFI_Mode where
  | ap_fixed
  | ap_fixed_auto
  | mesh_root
  | mesh_non_leaf
  | mesh_leaf
  deriving DecidableEq, Repr

/-- The struct `WIFI_AP` of `wifi.h`, for an entry that stands before the
terminator of the registry: its `ssid` is not NULL, its `psw` may be. -/
structure WIFI_AP where
  ssid : String
  psw : Option String
  deriving DecidableEq, Repr

/-- The enum `WIFI_state_t` (built without WITH_SMARTLINK and WITH_SMARTWEB). -/
inductive WIFI_state_t where
  | none
  | wifi_connect
  | wifi_connect_in_progress
  | wifi_connect_done
  | wifi_connect_fail
  | wifi_disconnect
  | wifi_disconnect_in_progress
  | wifi_disconnect_done
  | wifi_scan
  | wifi_scan_in_progress
  | wifi_scan_done
  | wifi_scan_fail
  | wifi_disabled
  | wifi_ready
  deriving DecidableEq, Repr

/-- The enum `WIFI_Mesh_state_t`.  The source also writes `none` (value 0) for
`mesh_none`. -/
inductive WIFI_Mesh_state_t where
  | mesh_none
  | mesh_connect
  | mesh_connect_in_progress
  | mesh_connect_done
  | mesh_connect_fail
  | mesh_scan_in_progress
  | mesh_scan_done
  | mesh_disabled
  deriving DecidableEq, Repr

/-- The SDK enum `STATUS` handed to the scan-completion callback. -/
inductive STATUS where
  | OK
  | FAIL
  | PENDING
  | BUSY
  | CANCEL
  deriving DecidableEq, Repr

/-- The fields of the SDK struct `station_config` that `wifi.c` writes. -/
structure station_config where
  ssid : String
  password : String
  deriving DecidableEq, Repr

/-- The SDK struct `ip_info`. -/
structure ip_info where
  ip : Nat
  netmask : Nat
  gw : Nat
  deriving DecidableEq, Repr

/-- The fields of the SDK struct `softap_config` that `wifi.c` writes. -/
structure softap_config where
  ssid : String
  password : String
  ssid_len : Nat
  authmode : Nat
  ssid_hidden : Nat
  max_connection : Nat
  deriving DecidableEq, Repr

/-- The fields of the SDK struct `bss_info` that the scan callback reads; a scan
result is the list of them that `next.stqe_next` links.  `rssi` is a `sint8`. -/
structure bss_info where
  ssid : String
  channel : Nat
  rssi : Int
  authmode : Nat
  deriving DecidableEq, Repr

/-- The struct `WIFI`.  A callback is the address of a function, 0 when none
is registered; `m_CallbackPtr` is the owner's context pointer. -/
structure WIFI where
  m_WIFIMode : WIFI_Mode
  m_StationConfig : station_config
  m_Mac : String
  m_Info : ip_info
  m_OnConnectCallback : Nat
  m_OnDisconnectCallback : Nat
  m_CallbackPtr : Nat
  deriving DecidableEq, Repr

/-- The struct `WIFIMesh`. -/
structure WIFIMesh where
  m_ApConfig : softap_config
  deriving DecidableEq, Repr

/-- The file-level statics of `wifi.c`. -/
structure Globals where
  wifi_list : List WIFI_AP
  wifi_best_ssid : Option WIFI_AP
  wifi : WIFI
  wifi_mesh : WIFIMesh
  WIFI_state : WIFI_state_t
  WIFI_Mesh_state : WIFI_Mesh_state_t
  mesh_prefix : String
  mesh_postfix : String
  mesh_status : Char
  deriving DecidableEq, Repr

/-- The three timers of `wifi.c`. -/
inductive TimerId where
  | connect_check_timer
  | connect_timeout_timer
  | mesh_check_timer
  deriving DecidableEq, Repr

/-- A command sent to the SDK, to the timer library or to the owner. -/
inductive Effect where
  | wifi_set_opmode (mode : Nat)
  | wifi_set_opmode_current (mode : Nat)
  | wifi_station_set_config (cfg : station_config)
  | wifi_station_set_config_current (cfg : station_config)
  | wifi_station_set_auto_connect (set : Nat)
  | wifi_station_connect
  | wifi_station_disconnect
  | wifi_station_scan
  | wifi_softap_set_config (cfg : softap_config)
  | wifi_softap_set_config_current (cfg : softap_config)
  | wifi_softap_free_station_info
  | countdown (timer : TimerId) (seconds : Nat)
  | OnConnectCallback (fn : Nat) (arg : Nat) (ptr : Nat)
  | OnDisconnectCallback (fn : Nat) (arg : Nat) (ptr : Nat)
  deriving DecidableEq, Repr

/-- What the SDK and the timer library answer during one call of `WIFI_Run`. -/
structure Env where
  connect_timeout_expired : Bool
  connect_check_expired : Bool
  mesh_check_expired : Bool
  connect_status : Nat
  ip : ip_info
  scan_accepted : Bool
  station_info : List Nat
  deriving DecidableEq, Repr

/-- The value a function returns, the statics it leaves and the commands it
sent, in order. -/
structure Res (α : Type) where
  ret : α
  st : Globals
  trace : List Effect

/-! ## Constants -/

def CONNECT_CHECK_INTERVAL_SECONDS : Nat := 15
def CONNECT_TIMEOUT_SECONDS : Nat := 30
def MESH_CHECK_INTERVAL_SECONDS : Nat := 10

def MESH_STATUS_NONE : Char := '0'
def MESH_STATUS_CONNECTED : Char := '1'

/-- SDK operating modes. -/
def NULL_MODE : Nat := 0
def STATION_MODE : Nat := 1
def SOFTAP_MODE : Nat := 2
def STATIONAP_MODE : Nat := 3

/-- SDK authentication mode. -/
def AUTH_OPEN : Nat := 0

/-- SDK station connection statuses. -/
def STATION_IDLE : Nat := 0
def STATION_CONNECTING : Nat := 1
def STATION_WRONG_PASSWORD : Nat := 2
def STATION_NO_AP_FOUND : Nat := 3
def STATION_CONNECT_FAIL : Nat := 4
def STATION_GOT_IP : Nat := 5

/-! ## String primitives of the SDK -/

/-- The C string held by a character buffer: what stands before the first NUL. -/
def c_str (buf : List Char) : String :=
  ⟨buf.takeWhile (fun c => c ≠ '\x00')⟩

/-- The destination after `os_strcpy(dst, src)`. -/
def os_strcpy (_dst : String) (src : String) : String := src

/-- The destination after `os_strcat(dst, src)`. -/
def os_strcat (dst : String) (src : String) : String := dst ++ src

/-- The comparison loop of `strcmp`: the sign of the first difference, a string
that ends first being the smaller. -/
def strcmp_loop : List Char → List Char → Int
  | [], [] => 0
  | [], _ :: _ => -1
  | _ :: _, [] => 1
  | a :: as, b :: bs =>
    if a = b then strcmp_loop as bs else if a.toNat < b.toNat then -1 else 1

/-- The result of `os_strcmp(a, b)`. -/
def os_strcmp (a b : String) : Int := strcmp_loop a.data b.data

/-- One hexadecimal digit, as `%x` (lower case) or `%X` (upper case) prints it. -/
def hex_digit (upper : Bool) (n : Nat) : Char :=
  (if upper then "0123456789ABCDEF" else "0123456789abcdef").data.getD n '0'

/-- What `%02x` / `%02X` prints for a `uint8_t` argument. -/
def fmt_02x (upper : Bool) (b : Nat) : String :=
  ⟨[hex_digit upper (b % 256 / 16), hex_digit upper (b % 256 % 16)]⟩

/-- The text `os_sprintf(_, MACSTR, MAC2STR(hwaddr))` writes. -/
def sprintf_MACSTR (hwaddr : Fin 6 → Nat) : String :=
  fmt_02x false (hwaddr 0) ++ ":" ++ fmt_02x false (hwaddr 1) ++ ":" ++
  fmt_02x false (hwaddr 2) ++ ":" ++ fmt_02x false (hwaddr 3) ++ ":" ++
  fmt_02x false (hwaddr 4) ++ ":" ++ fmt_02x false (hwaddr 5)

/-- The text `os_sprintf(_, "%02X%02X%02X%02X%02X%02X", MAC2STR(hwaddr))` writes. -/
def sprintf_02X6 (hwaddr : Fin 6 → Nat) : String :=
  fmt_02x true (hwaddr 0) ++ fmt_02x true (hwaddr 1) ++ fmt_02x true (hwaddr 2) ++
  fmt_02x true (hwaddr 3) ++ fmt_02x true (hwaddr 4) ++ fmt_02x true (hwaddr 5)

/-! ## Private functions of `wifi.c` -/

/-- The loop of `wifi_find_ssid`, from the entry `p` points at. -/
def wifi_find_ssid_loop (ssid : String) : List WIFI_AP → Option WIFI_AP
  | [] => none
  | p :: rest =>
    if os_strcmp p.ssid ssid = 0 then some p else wifi_find_ssid_loop ssid rest

/-- `wifi_find_ssid(ssid)`. -/
def wifi_find_ssid (g : Globals) (ssid : String) : Option WIFI_AP :=
  wifi_find_ssid_loop ssid g.wifi_list

/-- `build_mesh_ap_ssid(status)`. -/
def build_mesh_ap_ssid (g : Globals) (status : Char) : Res Int :=
  let buf : List Char := [status, '\x00']
  let ssid0 := os_strcpy g.wifi_mesh.m_ApConfig.ssid g.mesh_prefix
  let ssid1 := os_strcat ssid0 "_"
  let ssid2 := os_strcat ssid1 (c_str buf)
  let ssid3 := os_strcat ssid2 "_"
  let ssid4 := os_strcat ssid3 g.mesh_postfix
  ⟨0,
   { g with wifi_mesh := { g.wifi_mesh with m_ApConfig := { g.wifi_mesh.m_ApConfig with ssid := ssid4 } } },
   []⟩

/-- `do_wifi_connect()`. -/
def do_wifi_connect (g : Globals) : Res WIFI_state_t :=
  match g.wifi.m_WIFIMode with
  | .ap_fixed | .ap_fixed_auto =>
    ⟨.wifi_connect_in_progress, g,
     [.wifi_set_opmode_current STATION_MODE,
      .wifi_station_set_config_current g.wifi.m_StationConfig,
      .wifi_station_connect,
      .wifi_station_set_auto_connect 1]⟩
  | .mesh_root =>
    ⟨.wifi_connect_in_progress, g,
     [.wifi_set_opmode_current STATION_MODE,
      .wifi_station_set_config_current g.wifi.m_StationConfig,
      .wifi_station_connect,
      .wifi_station_set_auto_connect 1]⟩
  | .mesh_non_leaf => ⟨.wifi_connect_in_progress, g, []⟩
  | .mesh_leaf => ⟨.wifi_connect_in_progress, g, []⟩

/-- `do_wifi_connect_done()`. -/
def do_wifi_connect_done (g : Globals) (env : Env) : Res WIFI_state_t :=
  let state := WIFI_state_t.wifi_ready
  let g1 : Globals := { g with wifi := { g.wifi with m_Info := env.ip } }
  match g1.wifi.m_WIFIMode with
  | .ap_fixed => ⟨state, g1, []⟩
  | .ap_fixed_auto => ⟨state, g1, []⟩
  | .mesh_root =>
    let g2 : Globals := { g1 with mesh_status := MESH_STATUS_CONNECTED }
    let r := build_mesh_ap_ssid g2 g2.mesh_status
    ⟨state, r.st,
     [.wifi_set_opmode_current STATIONAP_MODE] ++ r.trace ++
     [.wifi_softap_set_config_current r.st.wifi_mesh.m_ApConfig]⟩
  | .mesh_non_leaf => ⟨state, g1, []⟩
  | .mesh_leaf => ⟨state, g1, []⟩

/-- `do_wifi_disconnect()`. -/
def do_wifi_disconnect (g : Globals) : Res WIFI_state_t :=
  match g.wifi.m_WIFIMode with
  | .ap_fixed =>
    ⟨.wifi_disconnect_in_progress, g,
     [.wifi_station_set_auto_connect 0, .wifi_station_disconnect]⟩
  | .ap_fixed_auto =>
    ⟨.wifi_disconnect_in_progress, g,
     [.wifi_station_set_auto_connect 0, .wifi_station_disconnect]⟩
  | .mesh_root =>
    let g1 : Globals := { g with mesh_status := MESH_STATUS_NONE }
    let r := build_mesh_ap_ssid g1 g1.mesh_status
    ⟨.wifi_disconnect_in_progress, r.st,
     [.wifi_station_set_auto_connect 0, .wifi_station_disconnect] ++ r.trace ++
     [.wifi_softap_set_config r.st.wifi_mesh.m_ApConfig]⟩
  | .mesh_non_leaf => ⟨.wifi_disconnect_in_progress, g, []⟩
  | .mesh_leaf => ⟨.wifi_disconnect_in_progress, g, []⟩

/-- `do_wifi_disconnect_done()`. -/
def do_wifi_disconnect_done (g : Globals) : Res WIFI_state_t :=
  ⟨.wifi_disabled, g, []⟩

/-- `do_wifi_check()`: the driver's status, stored in a `uint8_t`, mapped to a
station state. -/
def do_wifi_check (g : Globals) (env : Env) : Res WIFI_state_t :=
  let wifi_status := env.connect_status % 256
  if wifi_status = STATION_IDLE then ⟨.wifi_connect_fail, g, []⟩
  else if wifi_status = STATION_GOT_IP then ⟨.wifi_connect_done, g, []⟩
  else if wifi_status = STATION_WRONG_PASSWORD then ⟨.wifi_connect_fail, g, []⟩
  else if wifi_status = STATION_NO_AP_FOUND then ⟨.wifi_connect_fail, g, []⟩
  else if wifi_status = STATION_CONNECT_FAIL then ⟨.wifi_connect_fail, g, []⟩
  else ⟨.wifi_connect_fail, g, []⟩

/-- `do_wifi_mesh_connect()`. -/
def do_wifi_mesh_connect (g : Globals) : Res WIFI_Mesh_state_t :=
  ⟨.mesh_scan_in_progress, g,
   [.wifi_station_set_auto_connect 0, .wifi_station_disconnect, .wifi_station_scan]⟩

/-- `do_wifi_scan()`.  The result of `wifi_station_scan` is only printed. -/
def do_wifi_scan (g : Globals) (env : Env) : Res WIFI_state_t :=
  let _rc := env.scan_accepted
  ⟨.wifi_scan_in_progress, g, [.wifi_set_opmode STATION_MODE, .wifi_station_scan]⟩

/-- `do_wifi_scan_done()`. -/
def do_wifi_scan_done (g : Globals) : Res WIFI_state_t :=
  match g.wifi_best_ssid with
  | some best =>
    let ssid := os_strcpy g.wifi.m_StationConfig.ssid best.ssid
    let password :=
      match best.psw with
      | some psw => os_strcpy g.wifi.m_StationConfig.password psw
      | none => ""
    ⟨.wifi_connect,
     { g with wifi := { g.wifi with m_StationConfig := { ssid := ssid, password := password } } },
     []⟩
  | none => ⟨.wifi_scan, g, []⟩

/-- The `while(bss)` loop of `scan_done_callback`: the local `best_rssi` and the
static `wifi_best_ssid` after the networks of `bss` have been visited. -/
def scan_loop (g : Globals) : List bss_info → Int × Option WIFI_AP → Int × Option WIFI_AP
  | [], acc => acc
  | bss :: next, (best_rssi, best) =>
    match wifi_find_ssid g bss.ssid with
    | some s =>
      if bss.rssi > best_rssi then scan_loop g next (bss.rssi, some s)
      else scan_loop g next (best_rssi, best)
    | none => scan_loop g next (best_rssi, best)

/-- `scan_done_callback(arg, status)`. -/
def scan_done_callback (g : Globals) (arg : List bss_info) (status : STATUS) : Globals :=
  let best_rssi : Int := -127
  let g1 : Globals :=
    match status with
    | .OK =>
      { g with wifi_best_ssid := (scan_loop g arg (best_rssi, g.wifi_best_ssid)).2,
               WIFI_state := .wifi_scan_done }
    | .FAIL | .PENDING | .BUSY | .CANCEL =>
      { g with WIFI_state := .wifi_scan_fail }
  if g1.WIFI_Mesh_state ≠ .mesh_disabled then
    { g1 with WIFI_Mesh_state := .mesh_scan_done }
  else g1

/-- `do_wifi_mesh_check()`.  It returns at `return WIFI_Mesh_state;`, what
follows in the source is never run. -/
def do_wifi_mesh_check (g : Globals) (env : Env) : Res WIFI_Mesh_state_t :=
  if env.station_info ≠ [] then ⟨g.WIFI_Mesh_state, g, [.wifi_softap_free_station_info]⟩
  else ⟨g.WIFI_Mesh_state, g, []⟩

/-! ## Public functions of `wifi.c` -/

/-- `WIFI_Initialize(p1, p2)`; `hwaddr` is what `wifi_get_macaddr` answers. -/
def WIFI_Initialize (g : Globals) (p1 p2 : Option String) (hwaddr : Fin 6 → Nat) : Res Int :=
  let cfg0 : station_config := { ssid := "", password := "" }
  let mac := sprintf_MACSTR hwaddr
  let w : WIFI :=
    { g.wifi with m_OnConnectCallback := 0, m_OnDisconnectCallback := 0, m_CallbackPtr := 0,
                  m_StationConfig := cfg0, m_Mac := mac, m_WIFIMode := .ap_fixed }
  let g1 : Globals :=
    { g with wifi := w, wifi_best_ssid := none,
             WIFI_state := .wifi_connect, WIFI_Mesh_state := .mesh_disabled }
  let trace : List Effect :=
    [.wifi_set_opmode NULL_MODE, .wifi_station_set_config cfg0, .wifi_station_set_auto_connect 0]
  match p1 with
  | some ssid =>
    let password :=
      match p2 with
      | some psw => os_strcpy cfg0.password psw
      | none => ""
    ⟨0, { g1 with wifi := { w with m_StationConfig :=
            { ssid := os_strcpy cfg0.ssid ssid, password := password } } }, trace⟩
  | none =>
    ⟨-1, { g1 with wifi := { w with m_StationConfig := { ssid := "", password := "" } } }, trace⟩

/-- `WIFI_InitializeEx(list)`. -/
def WIFI_InitializeEx (g : Globals) (list : List WIFI_AP) (hwaddr : Fin 6 → Nat) : Res Int :=
  let cfg0 : station_config := { ssid := "", password := "" }
  let mac := sprintf_MACSTR hwaddr
  let w : WIFI :=
    { g.wifi with m_OnConnectCallback := 0, m_OnDisconnectCallback := 0, m_CallbackPtr := 0,
                  m_StationConfig := cfg0, m_Mac := mac, m_WIFIMode := .ap_fixed_auto }
  ⟨0,
   { g with wifi_list := list, wifi := w, wifi_best_ssid := none,
            WIFI_state := .wifi_scan, WIFI_Mesh_state := .mesh_disabled },
   [.wifi_set_opmode NULL_MODE, .wifi_station_set_config cfg0, .wifi_station_set_auto_connect 0]⟩

/-- `WIFI_SetCallback(on_connect, on_disconnect, ptr)`. -/
def WIFI_SetCallback (g : Globals) (on_connect on_disconnect ptr : Nat) : Res Int :=
  ⟨0,
   { g with wifi := { g.wifi with m_OnConnectCallback := on_connect,
                                  m_OnDisconnectCallback := on_disconnect,
                                  m_CallbackPtr := ptr } },
   []⟩

/-- `WIFI_IsConnected()`. -/
def WIFI_IsConnected (g : Globals) : Res Int :=
  match g.wifi.m_WIFIMode with
  | .ap_fixed | .ap_fixed_auto => ⟨if g.WIFI_state = .wifi_ready then 1 else 0, g, []⟩
  | .mesh_root => ⟨if g.WIFI_state = .wifi_ready then 1 else 0, g, []⟩
  | .mesh_non_leaf => ⟨0, g, []⟩
  | .mesh_leaf => ⟨0, g, []⟩

/-- `WIFI_connect()`. -/
def WIFI_connect (g : Globals) : Res Int :=
  ⟨0, { g with WIFI_state := .wifi_connect }, []⟩

/-- `WIFI_disconnect()`. -/
def WIFI_disconnect (g : Globals) : Res Int :=
  ⟨0, { g with WIFI_state := .wifi_disconnect }, []⟩

/-- The first `switch` of `WIFI_Run`, on `WIFI_state`. -/
def WIFI_Run_station (g : Globals) (env : Env) : Globals × List Effect :=
  match g.WIFI_state with
  | .wifi_disabled => (g, [])
  | .none => (g, [])
  | .wifi_connect =>
    let r := do_wifi_connect g
    ({ r.st with WIFI_state := r.ret },
     r.trace ++ [.countdown .connect_check_timer CONNECT_CHECK_INTERVAL_SECONDS,
                 .countdown .connect_timeout_timer CONNECT_TIMEOUT_SECONDS])
  | .wifi_connect_in_progress =>
    if g.wifi.m_WIFIMode ≠ .ap_fixed ∧ env.connect_timeout_expired = true then
      ({ g with WIFI_state := .wifi_disabled }, [])
    else if env.connect_check_expired = true then
      let r := do_wifi_check g env
      ({ r.st with WIFI_state := r.ret },
       r.trace ++ [.countdown .connect_check_timer CONNECT_CHECK_INTERVAL_SECONDS])
    else (g, [])
  | .wifi_connect_fail =>
    if g.wifi.m_WIFIMode ≠ .ap_fixed then
      ({ g with WIFI_state := .wifi_disabled }, [])
    else
      let r := do_wifi_connect g
      ({ r.st with WIFI_state := r.ret },
       r.trace ++ [.countdown .connect_check_timer CONNECT_CHECK_INTERVAL_SECONDS])
  | .wifi_connect_done =>
    let r := do_wifi_connect_done g env
    let g1 : Globals := { r.st with WIFI_state := r.ret }
    let cb : List Effect :=
      if g1.wifi.m_OnConnectCallback ≠ 0 then
        [.OnConnectCallback g1.wifi.m_OnConnectCallback 1 g1.wifi.m_CallbackPtr]
      else []
    (g1, r.trace ++ cb ++ [.countdown .connect_check_timer CONNECT_CHECK_INTERVAL_SECONDS])
  | .wifi_disconnect =>
    let r := do_wifi_disconnect g
    ({ r.st with WIFI_state := r.ret }, r.trace)
  | .wifi_disconnect_in_progress => (g, [])
  | .wifi_disconnect_done =>
    let r := do_wifi_disconnect_done g
    let g1 : Globals := { r.st with WIFI_state := r.ret }
    let cb : List Effect :=
      if g1.wifi.m_OnDisconnectCallback ≠ 0 then
        [.OnDisconnectCallback g1.wifi.m_OnDisconnectCallback 1 g1.wifi.m_CallbackPtr]
      else []
    (g1, r.trace ++ cb)
  | .wifi_scan =>
    let r := do_wifi_scan g env
    ({ r.st with WIFI_state := r.ret }, r.trace)
  | .wifi_scan_in_progress => (g, [])
  | .wifi_scan_done =>
    let r := do_wifi_scan_done g
    ({ r.st with WIFI_state := r.ret }, r.trace)
  | .wifi_scan_fail =>
    if env.connect_check_expired = true then
      let r := do_wifi_scan g env
      ({ r.st with WIFI_state := r.ret },
       r.trace ++ [.countdown .connect_check_timer CONNECT_CHECK_INTERVAL_SECONDS])
    else (g, [])
  | .wifi_ready =>
    if env.connect_check_expired = true then
      let r := do_wifi_check g env
      let state := r.ret
      let g1 : Globals :=
        if state ≠ .wifi_connect_done then
          if r.st.wifi.m_WIFIMode = .ap_fixed_auto then { r.st with WIFI_state := .wifi_scan }
          else { r.st with WIFI_state := state }
        else r.st
      (g1, r.trace ++ [.countdown .connect_check_timer CONNECT_CHECK_INTERVAL_SECONDS])
    else (g, [])

/-- The second `switch` of `WIFI_Run`, on `WIFI_Mesh_state`; it reads the
`WIFI_state` the first one left. -/
def WIFI_Run_mesh (g : Globals) (env : Env) : Globals × List Effect :=
  match g.WIFI_Mesh_state with
  | .mesh_disabled => (g, [])
  | .mesh_none =>
    if g.WIFI_state = .wifi_disabled then ({ g with WIFI_Mesh_state := .mesh_connect }, [])
    else (g, [])
  | .mesh_connect =>
    let r := do_wifi_mesh_connect g
    ({ r.st with WIFI_Mesh_state := r.ret },
     r.trace ++ [.countdown .mesh_check_timer MESH_CHECK_INTERVAL_SECONDS])
  | .mesh_scan_in_progress => (g, [])
  | .mesh_scan_done =>
    let r := do_wifi_mesh_connect g
    ({ r.st with WIFI_Mesh_state := r.ret }, r.trace)
  | .mesh_connect_in_progress =>
    if env.mesh_check_expired = true then
      let r := do_wifi_mesh_check g env
      ({ r.st with WIFI_Mesh_state := r.ret },
       r.trace ++ [.countdown .mesh_check_timer MESH_CHECK_INTERVAL_SECONDS])
    else (g, [])
  | .mesh_connect_done => (g, [])
  | .mesh_connect_fail => (g, [])

/-- `WIFI_Run()`: one poll. -/
def WIFI_Run (g : Globals) (env : Env) : Res Int :=
  let rc : Int := 0
  let s := WIFI_Run_station g env
  let m := WIFI_Run_mesh s.1 env
  ⟨rc, m.1, s.2 ++ m.2⟩

/-- `WIFI_GetMAC()`. -/
def WIFI_GetMAC (g : Globals) : String := g.wifi.m_Mac

/-- `WIFI_MeshInitialize(mode, ssid, pass, prefix, group)`; `hwaddr` is what
`wifi_get_macaddr` answers. -/
def WIFI_MeshInitialize (g : Globals) (mode : WIFI_Mode) (ssid pass : Option String)
    (pfx : String) (_group : String) (hwaddr : Fin 6 → Nat) : Res Int :=
  let cfg0 : station_config := { ssid := "", password := "" }
  let w : WIFI :=
    { g.wifi with m_OnConnectCallback := 0, m_OnDisconnectCallback := 0, m_CallbackPtr := 0,
                  m_StationConfig := cfg0, m_Mac := sprintf_MACSTR hwaddr }
  let ap : softap_config :=
    { g.wifi_mesh.m_ApConfig with password := os_strcpy g.wifi_mesh.m_ApConfig.password "AbCdE",
                                  ssid_len := 0, authmode := AUTH_OPEN, ssid_hidden := 0,
                                  max_connection := 4 }
  let g1 : Globals :=
    { g with WIFI_state := .none, WIFI_Mesh_state := .mesh_none, wifi := w,
             wifi_mesh := { m_ApConfig := ap },
             mesh_prefix := os_strcpy g.mesh_prefix pfx,
             mesh_postfix := sprintf_02X6 hwaddr,
             mesh_status := MESH_STATUS_NONE }
  let trace : List Effect :=
    [.wifi_set_opmode NULL_MODE, .wifi_station_set_config cfg0, .wifi_station_set_auto_connect 0]
  let cfg1 : station_config :=
    match ssid with
    | some s =>
      { ssid := os_strcpy cfg0.ssid s,
        password := match pass with
                    | some p => os_strcpy cfg0.password p
                    | none => "" }
    | none => { ssid := "", password := "" }
  let rc1 : Int :=
    match ssid with
    | some _ => 0
    | none => -1
  match mode with
  | .ap_fixed =>
    ⟨rc1,
     { g1 with wifi := { w with m_WIFIMode := .ap_fixed, m_StationConfig := cfg1 },
               WIFI_state := .wifi_connect, WIFI_Mesh_state := .mesh_disabled },
     trace⟩
  | .mesh_root =>
    let g2 : Globals :=
      { g1 with wifi := { w with m_WIFIMode := .mesh_root, m_StationConfig := cfg1 },
                WIFI_state := .wifi_connect, WIFI_Mesh_state := .mesh_none }
    let r := build_mesh_ap_ssid g2 g2.mesh_status
    ⟨rc1, r.st, trace ++ [.wifi_station_set_config cfg1] ++ r.trace⟩
  | .mesh_non_leaf =>
    ⟨0,
     { g1 with wifi := { w with m_WIFIMode := .mesh_non_leaf, m_StationConfig := cfg0 },
               WIFI_state := .wifi_disabled, WIFI_Mesh_state := .mesh_connect },
     trace ++ [.wifi_station_set_config cfg0]⟩
  | .mesh_leaf =>
    ⟨0,
     { g1 with wifi := { w with m_WIFIMode := .mesh_leaf, m_StationConfig := cfg0 },
               WIFI_state := .wifi_disabled, WIFI_Mesh_state := .mesh_connect },
     trace ++ [.wifi_station_set_config cfg0]⟩
  | .ap_fixed_auto => ⟨0, g1, trace⟩

/-- A sequence of polls, one `Env` for each. -/
def run_polls (g : Globals) : List Env → Globals
  | [] => g
  | env :: rest => run_polls (WIFI_Run g env).st rest

/-- What can happen to the module between two moments: a poll, a scan-completion
notification from the driver, or a call of the owner. -/
inductive Event where
  | poll (env : Env)
  | scan_done (arg : List bss_info) (status : STATUS)
  | connect
  | disconnect
  | set_callback (on_connect on_disconnect ptr : Nat)

/-- The statics after one event. -/
def step (g : Globals) : Event → Globals
  | .poll env => (WIFI_Run g env).st
  | .scan_done arg status => scan_done_callback g arg status
  | .connect => (WIFI_connect g).st
  | .disconnect => (WIFI_disconnect g).st
  | .set_callback on_connect on_disconnect ptr =>
    (WIFI_SetCallback g on_connect on_disconnect ptr).st

/-- The statics after a sequence of events. -/
def run_events (g : Globals) : List Event → Globals
  | [] => g
  | e :: rest => run_events (step g e) rest

/-- The invocations of the on-connect callback in a trace. -/
def on_connect_calls (trace : List Effect) : List Effect :=
  trace.filter (fun e => match e with
    | .OnConnectCallback _ _ _ => true
    | _ => false)

/-- A network name is known when an entry of the registry carries it. -/
def known (g : Globals) (ssid : String) : Prop :=
  ∃ e ∈ g.wifi_list, e.ssid = ssid

instance (g : Globals) (ssid : String) : Decidable (known g ssid) := by
  unfold known; infer_instance

/-! ## Sample inputs -/

/-- A `WIFI` record with nothing configured, in the given mode. -/
def sample_wifi (mode : WIFI_Mode) : WIFI :=
  { m_WIFIMode := mode, m_StationConfig := { ssid := "", password := "" }, m_Mac := "",
    m_Info := { ip := 0, netmask := 0, gw := 0 },
    m_OnConnectCallback := 0, m_OnDisconnectCallback := 0, m_CallbackPtr := 0 }

/-- A registry of three known networks. -/
def sample_registry : List WIFI_AP :=
  [{ ssid := "home", psw := some "secret" }, { ssid := "office", psw := none },
   { ssid := "cafe", psw := some "latte" }]

/-- Statics with the sample registry, no scan winner and the given mode and states. -/
def sample_globals (mode : WIFI_Mode) (state : WIFI_state_t) (mesh : WIFI_Mesh_state_t) :
    Globals :=
  { wifi_list := sample_registry, wifi_best_ssid := none, wifi := sample_wifi mode,
    wifi_mesh := { m_ApConfig := { ssid := "", password := "", ssid_len := 0, authmode := 0,
                                   ssid_hidden := 0, max_connection := 0 } },
    WIFI_state := state, WIFI_Mesh_state := mesh,
    mesh_prefix := "", mesh_postfix := "", mesh_status := '0' }

/-- Three networks of the sample registry, as a scan reports them. -/
def net_home : bss_info := { ssid := "home", channel := 1, rssi := -80, authmode := 3 }
def net_office : bss_info := { ssid := "office", channel := 6, rssi := -45, authmode := 0 }
def net_cafe : bss_info := { ssid := "cafe", channel := 11, rssi := -60, authmode := 3 }

/-- A network that is not in the sample registry. -/
def net_guest : bss_info := { ssid := "guest", channel := 3, rssi := -30, authmode := 0 }

/-- The answers of a poll in which no timer has expired. -/
def env_quiet : Env :=
  { connect_timeout_expired := false, connect_check_expired := false,
    mesh_check_expired := false, connect_status := 1,
    ip := { ip := 0, netmask := 0, gw := 0 }, scan_accepted := true, station_info := [] }

/-- The station states of the connect cycle. -/
def in_connect_cycle (s : WIFI_state_t) : Prop :=
  s = .wifi_connect ∨ s = .wifi_connect_in_progress ∨ s = .wifi_connect_done ∨
  s = .wifi_connect_fail ∨ s = .wifi_ready

/-- What holds along the polls of a station in fixed mode whose mesh machine is
disabled: the mode, the mesh state and the station configuration stay, and
the station state is one of the connect cycle. -/
def fixed_inv (cfg : station_config) (g : Globals) : Prop :=
  g.wifi.m_WIFIMode = .ap_fixed ∧ g.WIFI_Mesh_state = .mesh_disabled ∧
  g.wifi.m_StationConfig = cfg ∧ in_connect_cycle g.WIFI_state

/-- The commands of one connect attempt in the station modes. -/
def connect_commands (cfg : station_config) : List Effect :=
  [.wifi_set_opmode_current STATION_MODE, .wifi_station_set_config_current cfg,
   .wifi_station_connect, .wifi_station_set_auto_connect 1]

/-- The answers of a poll in which the check timer has expired and the driver
reports the given status. -/
def env_check (status : Nat) : Env :=
  { connect_timeout_expired := false, connect_check_expired := true,
    mesh_check_expired := false, connect_status := status,
    ip := { ip := 0, netmask := 0, gw := 0 }, scan_accepted := true, station_info := [] }

/-- A hardware address. -/
def sample_hwaddr : Fin 6 → Nat := ![0xAA, 0xBB, 0xCC, 0xDD, 0xEE, 0xFF]

/-- A trace arms a station timer when it holds a `countdown` of the check timer
or of the timeout timer. -/
def arms_station_timer (trace : List Effect) : Prop :=
  ∃ seconds : Nat, Effect.countdown .connect_check_timer seconds ∈ trace ∨
    Effect.countdown .connect_timeout_timer seconds ∈ trace

/-- The answers of a poll in which every timer has expired and the driver
reports the given status. -/
def env_all_expired (status : Nat) : Env :=
  { connect_timeout_expired := true, connect_check_expired := true,
    mesh_check_expired := true, connect_status := status,
    ip := { ip := 0, netmask := 0, gw := 0 }, scan_accepted := true, station_info := [] }

/-- An auto-select station that found "home", connected, lost the connection
and has started the next scan: the events up to that scan's completion. -/
def events_until_second_scan : List Event :=
  [.poll env_quiet, .scan_done [net_home] .OK, .poll env_quiet, .poll env_quiet,
   .poll (env_check STATION_GOT_IP), .poll env_quiet, .poll (env_check STATION_IDLE),
   .poll env_quiet]

/-- The statics of that station when its second scan completes. -/
def globals_at_second_scan : Globals :=
  run_events (WIFI_InitializeEx (sample_globals .ap_fixed .none .mesh_none) sample_registry
    sample_hwaddr).st events_until_second_scan

/-- The network "home" of the sample registry, received at the seed strength
and at the least strength a `sint8` holds. -/
def net_home_at_seed : bss_info := { ssid := "home", channel := 1, rssi := -127, authmode := 3 }
def net_home_at_min : bss_info := { ssid := "home", channel := 1, rssi := -128, authmode := 3 }

/-- A mesh prefix of 23 bytes, longer than `mesh_prefix[14]` holds. -/
def long_mesh_prefix : String := "a-very-long-mesh-prefix"

/-- The driver's limit on the length of an SSID, in bytes. -/
def SSID_LIMIT : Nat := 32

/-- The answers of a poll in which no timer has expired and the driver refuses
the scan trigger. -/
def env_scan_refused : Env :=
  { connect_timeout_expired := false, connect_check_expired := false,
    mesh_check_expired := false, connect_status := 1,
    ip := { ip := 0, netmask := 0, gw := 0 }, scan_accepted := false, station_info := [] }

/-- The invocations of the on-disconnect callback in a trace. -/
def on_disconnect_calls (trace : List Effect) : List Effect :=
  trace.filter (fun e => match e with
    | .OnDisconnectCallback _ _ _ => true
    | _ => false)

/-- Whether an event is a scan-completion notification. -/
def is_scan_done : Event → Bool
  | .scan_done _ _ => true
  | _ => false

/-- The statics of a mesh root with SSID "home" and prefix "mesh" right after
`WIFI_MeshInitialize`. -/
def mesh_root_initial : Globals :=
  (WIFI_MeshInitialize (sample_globals .ap_fixed .none .mesh_none) .mesh_root (some "home")
    none "mesh" "group" sample_hwaddr).st

/-- An element of the array `WIFI_InitializeEx` receives, as `wifi.h` declares
`WIFI_AP`: both pointers may be NULL, and the first element whose `ssid` is
NULL ends the array. -/
structure WIFI_AP_raw where
  ssid : Option String
  psw : Option String
  deriving DecidableEq, Repr

/-- The entries of an array that stand before its terminator: the registry as
`Globals.wifi_list` holds it. -/
def registry_entries : List WIFI_AP_raw → List WIFI_AP
  | [] => []
  | c :: rest =>
    match c.ssid with
    | none => []
    | some s => { ssid := s, psw := c.psw } :: registry_entries rest

/-- The loop of `wifi_find_ssid` on the array itself: the offset from
`wifi_list` of the element the function returns, `none` for NULL. -/
def wifi_find_ssid_index (ssid : String) : List WIFI_AP_raw → Option Nat
  | [] => none
  | p :: rest =>
    match p.ssid with
    | none => none
    | some s =>
      if os_strcmp s ssid = 0 then some 0
      else (wifi_find_ssid_index ssid rest).map (fun i => i + 1)

/-- The first entry of a registry that carries the given name, in the words of
the specification: registry order decides among duplicates. -/
def first_exact_match (registry : List WIFI_AP) (ssid : String) : Option WIFI_AP :=
  registry.find? (fun e => decide (e.ssid = ssid))

/-- An array with a duplicate name and an element behind the terminator. -/
def sample_array : List WIFI_AP_raw :=
  [{ ssid := some "home", psw := some "secret" }, { ssid := some "cafe", psw := some "first" },
   { ssid := some "cafe", psw := some "second" }, { ssid := none, psw := none },
   { ssid := some "office", psw := none }]

/-- The statics one of the three initializers leaves, whatever the statics
before the call and the arguments are. -/
def initial (g0 : Globals) : Prop :=
  (∃ (g : Globals) (p1 p2 : Option String) (hwaddr : Fin 6 → Nat),
    g0 = (WIFI_Initialize g p1 p2 hwaddr).st) ∨
  (∃ (g : Globals) (list : List WIFI_AP) (hwaddr : Fin 6 → Nat),
    g0 = (WIFI_InitializeEx g list hwaddr).st) ∨
  (∃ (g : Globals) (mode : WIFI_Mode) (ssid pass : Option String) (pfx group : String)
    (hwaddr : Fin 6 → Nat), g0 = (WIFI_MeshInitialize g mode ssid pass pfx group hwaddr).st)

/-- The mesh states of the scanning cycle. -/
def in_mesh_scan_cycle (m : WIFI_Mesh_state_t) : Prop :=
  m = .mesh_none ∨ m = .mesh_connect ∨ m = .mesh_scan_in_progress ∨ m = .mesh_scan_done ∨
  m = .mesh_disabled

/-- An owner that registers callbacks, asks to disconnect and keeps polling while
a scan completes. -/
def events_with_disconnect : List Event :=
  [.set_callback 4096 8192 77, .poll env_quiet, .disconnect, .poll env_quiet,
   .poll (env_all_expired STATION_GOT_IP), .scan_done [net_home] .OK, .poll env_quiet,
   .connect, .poll env_quiet, .disconnect, .poll env_quiet]

/-- A mesh leaf that polls while its scans complete and its owner asks to
connect and to disconnect. -/
def events_of_mesh_leaf : List Event :=
  [.poll env_quiet, .scan_done [] .OK, .poll (env_all_expired STATION_IDLE), .connect,
   .poll env_quiet, .scan_done [] .FAIL, .disconnect]

/-- The statics of a mesh leaf with prefix "mesh" right after `WIFI_MeshInitialize`. -/
def mesh_leaf_initial : Globals :=
  (WIFI_MeshInitialize (sample_globals .ap_fixed .none .mesh_none) .mesh_leaf none none
    "mesh" "group" sample_hwaddr).st

/-- Two networks of the sample registry received at the same strength. -/
def net_home_tie : bss_info := { ssid := "home", channel := 1, rssi := -50, authmode := 3 }
def net_cafe_tie : bss_info := { ssid := "cafe", channel := 11, rssi := -50, authmode := 3 }

/-! ## Buffer capacities

The functions above copy strings without a bound.  The forms below carry the
sizes of the destination buffers: a copy that would write past its buffer has
no defined result and is `none`. -/

/-- Sizes in bytes of `mesh_prefix[14]`, `mesh_postfix[16]` and `m_Mac[20]` of
`wifi.c`, and of the `ssid[32]` and `password[64]` fields of the SDK structs
`station_config` and `softap_config`. -/
def MESH_PREFIX_SIZE : Nat := 14
def MESH_POSTFIX_SIZE : Nat := 16
def MAC_SIZE : Nat := 20
def SSID_SIZE : Nat := 32
def PASSWORD_SIZE : Nat := 64

/-- `os_strcpy(dst, src)` into a buffer of `size` bytes: the destination when
the string and its terminating NUL fit, `none` when the copy overruns. -/
def os_strcpy_into (size : Nat) (dst src : String) : Option String :=
  if src.length + 1 ≤ size then some (os_strcpy dst src) else none

/-- `os_strcat(dst, src)` into a buffer of `size` bytes. -/
def os_strcat_into (size : Nat) (dst src : String) : Option String :=
  if dst.length + src.length + 1 ≤ size then some (os_strcat dst src) else none

/-- `build_mesh_ap_ssid(status)` with `m_ApConfig.ssid` a buffer of 32 bytes. -/
def build_mesh_ap_ssid_bounded (g : Globals) (status : Char) : Option (Res Int) := do
  let buf : List Char := [status, '\x00']
  let ssid0 ← os_strcpy_into SSID_SIZE g.wifi_mesh.m_ApConfig.ssid g.mesh_prefix
  let ssid1 ← os_strcat_into SSID_SIZE ssid0 "_"
  let ssid2 ← os_strcat_into SSID_SIZE ssid1 (c_str buf)
  let ssid3 ← os_strcat_into SSID_SIZE ssid2 "_"
  let ssid4 ← os_strcat_into SSID_SIZE ssid3 g.mesh_postfix
  pure ⟨0,
    { g with wifi_mesh :=
        { g.wifi_mesh with m_ApConfig := { g.wifi_mesh.m_ApConfig with ssid := ssid4 } } },
    []⟩

/-- The copies of `ssid` and `pass` into `m_StationConfig` that the cases
`ap_fixed` and `mesh_root` of `WIFI_MeshInitialize` make, each into its buffer. -/
def station_config_copies (ssid pass : Option String) : Option Unit :=
  match ssid with
  | some s => do
    let _ ← os_strcpy_into SSID_SIZE "" s
    match pass with
    | some p => do
      let _ ← os_strcpy_into PASSWORD_SIZE "" p
      pure ()
    | none => pure ()
  | none => pure ()

/-- `WIFI_MeshInitialize` with every copy made into its buffer: the result of
`WIFI_MeshInitialize` when every copy fits, `none` as soon as one overruns. -/
def WIFI_MeshInitialize_bounded (g : Globals) (mode : WIFI_Mode) (ssid pass : Option String)
    (pfx : String) (group : String) (hwaddr : Fin 6 → Nat) : Option (Res Int) := do
  let p ← os_strcpy_into MESH_PREFIX_SIZE (Globals.mesh_prefix g) pfx
  let _ ← os_strcpy_into PASSWORD_SIZE g.wifi_mesh.m_ApConfig.password "AbCdE"
  let _ ← os_strcpy_into MAC_SIZE g.wifi.m_Mac (sprintf_MACSTR hwaddr)
  let q ← os_strcpy_into MESH_POSTFIX_SIZE (Globals.mesh_postfix g) (sprintf_02X6 hwaddr)
  match mode with
  | .ap_fixed => do
    let _ ← station_config_copies ssid pass
    pure (WIFI_MeshInitialize g mode ssid pass pfx group hwaddr)
  | .mesh_root => do
    let _ ← station_config_copies ssid pass
    let _ ← build_mesh_ap_ssid_bounded { g with mesh_prefix := p, mesh_postfix := q }
      MESH_STATUS_NONE
    pure (WIFI_MeshInitialize g mode ssid pass pfx group hwaddr)
  | .mesh_non_leaf => pure (WIFI_MeshInitialize g mode ssid pass pfx group hwaddr)
  | .mesh_leaf => pure (WIFI_MeshInitialize g mode ssid pass pfx group hwaddr)
  | .ap_fixed_auto => pure (WIFI_MeshInitialize g mode ssid pass pfx group hwaddr)

/-- A mesh prefix of 14 bytes, one more than `mesh_prefix[14]` holds. -/
def mesh_prefix_of_14 : String := "mesh-network-A"

/-! ## The registry pointer

`Globals.wifi_list` is the registry `WIFI_InitializeEx` has stored.  The source
holds a pointer, NULL from reset until that call, and `wifi_find_ssid` reads
through it without a test.  The forms below carry the pointer itself: `none`
is NULL, and a read through NULL is a fault, which has no result. -/

/-- `wifi_find_ssid(ssid)` from the pointer `wifi_list`: the outer `none` is the
fault of reading `p->ssid` through a NULL `wifi_list`. -/
def wifi_find_ssid_ptr (wifi_list : Option (List WIFI_AP)) (ssid : String) :
    Option (Option WIFI_AP) :=
  match wifi_list with
  | none => none
  | some p => some (wifi_find_ssid_loop ssid p)

/-- The `while(bss)` loop of `scan_done_callback` over the pointer `wifi_list`. -/
def scan_loop_ptr (wifi_list : Option (List WIFI_AP)) :
    List bss_info → Int × Option WIFI_AP → Option (Int × Option WIFI_AP)
  | [], acc => some acc
  | bss :: next, (best_rssi, best) =>
    match wifi_find_ssid_ptr wifi_list bss.ssid with
    | none => none
    | some (some s) =>
      if bss.rssi > best_rssi then scan_loop_ptr wifi_list next (bss.rssi, some s)
      else scan_loop_ptr wifi_list next (best_rssi, best)
    | some none => scan_loop_ptr wifi_list next (best_rssi, best)

/-- `scan_done_callback(arg, status)` over the pointer `wifi_list`: `none` when
the loop faults, in which case the statements after it are not reached. -/
def scan_done_callback_ptr (wifi_list : Option (List WIFI_AP)) (g : Globals)
    (arg : List bss_info) (status : STATUS) : Option Globals :=
  let best_rssi : Int := -127
  let g1 : Option Globals :=
    match status with
    | .OK =>
      (scan_loop_ptr wifi_list arg (best_rssi, g.wifi_best_ssid)).map
        (fun r => { g with wifi_best_ssid := r.2, WIFI_state := .wifi_scan_done })
    | .FAIL | .PENDING | .BUSY | .CANCEL =>
      some { g with WIFI_state := .wifi_scan_fail }
  g1.map (fun g1 =>
    if g1.WIFI_Mesh_state ≠ .mesh_disabled then { g1 with WIFI_Mesh_state := .mesh_scan_done }
    else g1)

/-- The statics together with the pointer `wifi_list` as the source holds it. -/
structure Firmware where
  wifi_list : Option (List WIFI_AP)
  statics : Globals
  deriving DecidableEq

/-- The statics at reset: C sets every static to zero, so the pointers are NULL,
the strings empty, the mode `ap_fixed` and both states the first of their enum. -/
def reset_globals : Globals :=
  { wifi_list := [], wifi_best_ssid := none,
    wifi := { m_WIFIMode := .ap_fixed, m_StationConfig := { ssid := "", password := "" },
              m_Mac := "", m_Info := { ip := 0, netmask := 0, gw := 0 },
              m_OnConnectCallback := 0, m_OnDisconnectCallback := 0, m_CallbackPtr := 0 },
    wifi_mesh := { m_ApConfig := { ssid := "", password := "", ssid_len := 0, authmode := 0,
                                   ssid_hidden := 0, max_connection := 0 } },
    WIFI_state := .none, WIFI_Mesh_state := .mesh_none,
    mesh_prefix := "", mesh_postfix := "", mesh_status := '\x00' }

/-- The firmware at reset: `wifi_list` is NULL. -/
def firmware_at_reset : Firmware := { wifi_list := none, statics := reset_globals }

/-- `WIFI_InitializeEx(list)`: the only function that assigns `wifi_list`. -/
def Firmware.InitializeEx (f : Firmware) (list : List WIFI_AP) (hwaddr : Fin 6 → Nat) :
    Firmware :=
  { wifi_list := some list, statics := (WIFI_InitializeEx f.statics list hwaddr).st }

/-- `WIFI_MeshInitialize(...)`: it leaves `wifi_list` as it is. -/
def Firmware.MeshInitialize (f : Firmware) (mode : WIFI_Mode) (ssid pass : Option String)
    (pfx group : String) (hwaddr : Fin 6 → Nat) : Firmware :=
  { f with statics := (WIFI_MeshInitialize f.statics mode ssid pass pfx group hwaddr).st }

/-- One event on the firmware; only the scan notification reads `wifi_list`. -/
def Firmware.step (f : Firmware) : Event → Option Firmware
  | .scan_done arg status =>
    (scan_done_callback_ptr f.wifi_list f.statics arg status).map
      (fun g => { f with statics := g })
  | .poll env => some { f with statics := Wifi.step f.statics (.poll env) }
  | .connect => some { f with statics := Wifi.step f.statics .connect }
  | .disconnect => some { f with statics := Wifi.step f.statics .disconnect }
  | .set_callback a b c => some { f with statics := Wifi.step f.statics (.set_callback a b c) }

/-- A sequence of events on the firmware; a fault ends it. -/
def Firmware.run_events (f : Firmware) : List Event → Option Firmware
  | [] => some f
  | e :: rest =>
    match Firmware.step f e with
    | none => none
    | some f1 => Firmware.run_events f1 rest

/-- A mesh non-leaf node right after reset and `WIFI_MeshInitialize`. -/
def mesh_non_leaf_from_reset : Firmware :=
  Firmware.MeshInitialize firmware_at_reset .mesh_non_leaf none none "mesh" "group"
    sample_hwaddr

/-- A mesh root right after reset and `WIFI_MeshInitialize`. -/
def mesh_root_from_reset : Firmware :=
  Firmware.MeshInitialize firmware_at_reset .mesh_root (some "home") (some "secret") "mesh"
    "group" sample_hwaddr

/-! ## Registry lookup -/

theorem strcmp_loop_eq_zero (a : List Char) : ∀ b : List Char, strcmp_loop a b = 0 ↔ a = b := by
  induction a with
  | nil => intro b; cases b <;> simp [strcmp_loop]
  | cons x xs ih =>
    intro b
    cases b with
    | nil => simp [strcmp_loop]
    | cons y ys =>
      by_cases hxy : x = y
      · simp [strcmp_loop, hxy, ih]
      · by_cases hlt : x.toNat < y.toNat <;> simp [strcmp_loop, hxy, hlt]

theorem os_strcmp_eq_zero (a b : String) : os_strcmp a b = 0 ↔ a = b := by
  unfold os_strcmp
  rw [strcmp_loop_eq_zero]
  exact ⟨fun h => String.ext h, fun h => by rw [h]⟩

theorem wifi_find_ssid_loop_some (ssid : String) (l : List WIFI_AP) (p : WIFI_AP)
    (h : wifi_find_ssid_loop ssid l = some p) : p ∈ l ∧ p.ssid = ssid := by
  induction l with
  | nil => simp [wifi_find_ssid_loop] at h
  | cons q rest ih =>
    unfold wifi_find_ssid_loop at h
    by_cases hq : os_strcmp q.ssid ssid = 0
    · rw [if_pos hq] at h
      have hp : q = p := by simpa using h
      subst hp
      exact ⟨List.mem_cons_self _ _, (os_strcmp_eq_zero _ _).1 hq⟩
    · rw [if_neg hq] at h
      exact ⟨List.mem_cons_of_mem _ (ih h).1, (ih h).2⟩

theorem wifi_find_ssid_loop_isSome (ssid : String) (l : List WIFI_AP) :
    (wifi_find_ssid_loop ssid l).isSome = true ↔ ∃ e ∈ l, e.ssid = ssid := by
  induction l with
  | nil => simp [wifi_find_ssid_loop]
  | cons q rest ih =>
    unfold wifi_find_ssid_loop
    by_cases hq : os_strcmp q.ssid ssid = 0
    · rw [if_pos hq]
      simp [(os_strcmp_eq_zero _ _).1 hq]
    · rw [if_neg hq, ih]
      have hne : q.ssid ≠ ssid := fun h => hq ((os_strcmp_eq_zero _ _).2 h)
      simp [hne]

theorem wifi_find_ssid_isSome (g : Globals) (ssid : String) :
    (wifi_find_ssid g ssid).isSome = true ↔ known g ssid :=
  wifi_find_ssid_loop_isSome ssid g.wifi_list

/-! ## The scan loop -/

theorem scan_loop_nil (g : Globals) (acc : Int × Option WIFI_AP) : scan_loop g [] acc = acc := by
  unfold scan_loop; rfl

theorem scan_loop_cons (g : Globals) (b : bss_info) (l : List bss_info) (r : Int)
    (w : Option WIFI_AP) :
    scan_loop g (b :: l) (r, w) =
      if (wifi_find_ssid g b.ssid).isSome = true ∧ r < b.rssi then
        scan_loop g l (b.rssi, wifi_find_ssid g b.ssid)
      else scan_loop g l (r, w) := by
  rw [scan_loop]
  cases h : wifi_find_ssid g b.ssid with
  | none => simp
  | some s =>
    by_cases hr : r < b.rssi
    · simp [hr]
    · simp [hr]

theorem scan_loop_spec (g : Globals) (l : List bss_info) : ∀ (r : Int) (w : Option WIFI_AP),
    (∀ b ∈ l, known g b.ssid → b.rssi ≤ (scan_loop g l (r, w)).1) ∧
    r ≤ (scan_loop g l (r, w)).1 ∧
    (scan_loop g l (r, w) = (r, w) ∨
      ∃ b ∈ l, known g b.ssid ∧ r < b.rssi ∧
        scan_loop g l (r, w) = (b.rssi, wifi_find_ssid g b.ssid)) := by
  induction l with
  | nil => intro r w; simp [scan_loop_nil]
  | cons b rest ih =>
    intro r w
    rw [scan_loop_cons]
    by_cases hc : (wifi_find_ssid g b.ssid).isSome = true ∧ r < b.rssi
    · rw [if_pos hc]
      obtain ⟨h1, h2, h3⟩ := ih b.rssi (wifi_find_ssid g b.ssid)
      have hk : known g b.ssid := (wifi_find_ssid_isSome g b.ssid).1 hc.1
      refine ⟨?_, by omega, ?_⟩
      · intro b' hb' hk'
        rcases List.mem_cons.1 hb' with rfl | hmem
        · exact h2
        · exact h1 b' hmem hk'
      · right
        rcases h3 with h3 | ⟨b', hb', hk', hlt, heq⟩
        · exact ⟨b, List.mem_cons_self _ _, hk, hc.2, h3⟩
        · exact ⟨b', List.mem_cons_of_mem _ hb', hk', by omega, heq⟩
    · rw [if_neg hc]
      obtain ⟨h1, h2, h3⟩ := ih r w
      refine ⟨?_, h2, ?_⟩
      · intro b' hb' hk'
        rcases List.mem_cons.1 hb' with rfl | hmem
        · have : ¬ r < b'.rssi := fun hlt => hc ⟨(wifi_find_ssid_isSome g b'.ssid).2 hk', hlt⟩
          omega
        · exact h1 b' hmem hk'
      · rcases h3 with h3 | ⟨b', hb', hk', hlt, heq⟩
        · exact Or.inl h3
        · exact Or.inr ⟨b', List.mem_cons_of_mem _ hb', hk', hlt, heq⟩

theorem scan_done_callback_OK_best (g : Globals) (arg : List bss_info) :
    (scan_done_callback g arg .OK).wifi_best_ssid =
      (scan_loop g arg (-127, g.wifi_best_ssid)).2 := by
  unfold scan_done_callback
  by_cases h : g.WIFI_Mesh_state = .mesh_disabled <;> simp [h]

theorem scan_done_callback_OK_state (g : Globals) (arg : List bss_info) :
    (scan_done_callback g arg .OK).WIFI_state = .wifi_scan_done := by
  unfold scan_done_callback
  by_cases h : g.WIFI_Mesh_state = .mesh_disabled <;> simp [h]

theorem scan_winner_spec (g : Globals) (arg : List bss_info) (w : Option WIFI_AP)
    (h_match : ∃ b ∈ arg, known g b.ssid)
    (h_rssi : ∀ b ∈ arg, known g b.ssid → -127 < b.rssi) :
    ∃ b ∈ arg, known g b.ssid ∧
      scan_loop g arg (-127, w) = (b.rssi, wifi_find_ssid g b.ssid) ∧
      ∀ b' ∈ arg, known g b'.ssid → b'.rssi ≤ b.rssi := by
  obtain ⟨h1, _, h3⟩ := scan_loop_spec g arg (-127) w
  rcases h3 with h3 | ⟨b, hb, hk, _, heq⟩
  · obtain ⟨b, hb, hk⟩ := h_match
    have hle := h1 b hb hk
    have hgt := h_rssi b hb hk
    rw [h3] at hle
    simp only at hle
    omega
  · refine ⟨b, hb, hk, heq, ?_⟩
    intro b' hb' hk'
    have := h1 b' hb' hk'
    rw [heq] at this
    exact this

/-! ## C1 -/

/-- C1. Scan Selector picks the strongest match.  After a successful scan
notification whose result list holds at least one known network, every known
network being stronger than the seed -127, the scan winner is the registry
entry `wifi_find_ssid` returns for a known network of the list whose RSSI is
the greatest among the known networks of the list.  In every order of the
result list the running maximum ends at the same value and the winner is an
entry found for a network of that strength.  Three known networks of strength
-80, -45 and -60 select the entry of the -45 network in each of the six
orders. -/
theorem scan_selector_picks_strongest (g : Globals) (arg : List bss_info)
    (h_match : ∃ b ∈ arg, known g b.ssid)
    (h_rssi : ∀ b ∈ arg, known g b.ssid → -127 < b.rssi) :
    (∃ b ∈ arg, known g b.ssid ∧
        (scan_done_callback g arg .OK).wifi_best_ssid = wifi_find_ssid g b.ssid ∧
        (wifi_find_ssid g b.ssid).isSome = true ∧
        ∀ b' ∈ arg, known g b'.ssid → b'.rssi ≤ b.rssi) ∧
    (∀ arg' : List bss_info, arg'.Perm arg →
        (scan_loop g arg' (-127, g.wifi_best_ssid)).1 =
          (scan_loop g arg (-127, g.wifi_best_ssid)).1 ∧
        ∃ b ∈ arg', known g b.ssid ∧
          b.rssi = (scan_loop g arg (-127, g.wifi_best_ssid)).1 ∧
          (scan_done_callback g arg' .OK).wifi_best_ssid = wifi_find_ssid g b.ssid) ∧
    (∀ a b c : bss_info, a.rssi = -80 → b.rssi = -45 → c.rssi = -60 →
        known g a.ssid → known g b.ssid → known g c.ssid →
        ∀ l ∈ [[a, b, c], [a, c, b], [b, a, c], [b, c, a], [c, a, b], [c, b, a]],
          (scan_done_callback g l .OK).wifi_best_ssid = wifi_find_ssid g b.ssid ∧
          (wifi_find_ssid g b.ssid).isSome = true) := by
  refine ⟨?_, ?_, ?_⟩
  · obtain ⟨b, hb, hk, heq, hmax⟩ := scan_winner_spec g arg g.wifi_best_ssid h_match h_rssi
    refine ⟨b, hb, hk, ?_, (wifi_find_ssid_isSome g b.ssid).2 hk, hmax⟩
    rw [scan_done_callback_OK_best, heq]
  · intro arg' hperm
    obtain ⟨b, hb, hk, heq, hmax⟩ := scan_winner_spec g arg g.wifi_best_ssid h_match h_rssi
    have h_match' : ∃ b ∈ arg', known g b.ssid := by
      obtain ⟨x, hx, hkx⟩ := h_match
      exact ⟨x, hperm.symm.subset hx, hkx⟩
    have h_rssi' : ∀ b ∈ arg', known g b.ssid → -127 < b.rssi :=
      fun x hx hkx => h_rssi x (hperm.subset hx) hkx
    obtain ⟨b', hb', hk', heq', hmax'⟩ :=
      scan_winner_spec g arg' g.wifi_best_ssid h_match' h_rssi'
    have h1 : b.rssi ≤ b'.rssi := hmax' b (hperm.symm.subset hb) hk
    have h2 : b'.rssi ≤ b.rssi := hmax b' (hperm.subset hb') hk'
    have hr : b'.rssi = b.rssi := le_antisymm h2 h1
    refine ⟨?_, b', hb', hk', ?_, ?_⟩
    · rw [heq, heq']; exact hr
    · rw [heq]; exact hr
    · rw [scan_done_callback_OK_best, heq']
  · intro a b c ha hb hc hka hkb hkc l hl
    have hmem : ∀ x ∈ l, x = a ∨ x = b ∨ x = c := by
      intro x hx
      simp only [List.mem_cons, List.mem_singleton, List.not_mem_nil, or_false] at hl
      rcases hl with rfl | rfl | rfl | rfl | rfl | rfl <;> simp at hx <;> tauto
    have hbl : b ∈ l := by
      simp only [List.mem_cons, List.mem_singleton, List.not_mem_nil, or_false] at hl
      rcases hl with rfl | rfl | rfl | rfl | rfl | rfl <;> simp
    have h_match' : ∃ x ∈ l, known g x.ssid := ⟨b, hbl, hkb⟩
    have h_rssi' : ∀ x ∈ l, known g x.ssid → -127 < x.rssi := by
      intro x hx _
      rcases hmem x hx with rfl | rfl | rfl <;> omega
    obtain ⟨x, hx, _, heq, hmax⟩ := scan_winner_spec g l g.wifi_best_ssid h_match' h_rssi'
    have hxb := hmax b hbl hkb
    have hxeq : x = b := by
      rcases hmem x hx with rfl | rfl | rfl
      · omega
      · rfl
      · omega
    subst hxeq
    refine ⟨?_, (wifi_find_ssid_isSome g x.ssid).2 hkb⟩
    rw [scan_done_callback_OK_best, heq]

theorem scan_selector_picks_strongest_witness :
    (∃ b ∈ [net_guest, net_home, net_office, net_cafe],
        known (sample_globals .ap_fixed_auto .wifi_scan_in_progress .mesh_disabled) b.ssid) ∧
    (∀ b ∈ [net_guest, net_home, net_office, net_cafe],
        known (sample_globals .ap_fixed_auto .wifi_scan_in_progress .mesh_disabled) b.ssid →
          -127 < b.rssi) ∧
    (scan_done_callback (sample_globals .ap_fixed_auto .wifi_scan_in_progress .mesh_disabled)
        [net_home, net_office, net_cafe] .OK).wifi_best_ssid =
      some { ssid := "office", psw := none } :=
  have h1 : ∃ b ∈ [net_guest, net_home, net_office, net_cafe],
      known (sample_globals .ap_fixed_auto .wifi_scan_in_progress .mesh_disabled) b.ssid := by
    decide
  have h2 : ∀ b ∈ [net_guest, net_home, net_office, net_cafe],
      known (sample_globals .ap_fixed_auto .wifi_scan_in_progress .mesh_disabled) b.ssid →
        -127 < b.rssi := by
    decide
  ⟨h1, h2,
   ((scan_selector_picks_strongest
      (sample_globals .ap_fixed_auto .wifi_scan_in_progress .mesh_disabled)
      [net_guest, net_home, net_office, net_cafe] h1 h2).2.2
      net_home net_office net_cafe rfl rfl rfl (by decide) (by decide) (by decide)
      [net_home, net_office, net_cafe] (by simp)).1.trans (by decide)⟩

/-! ## C2 -/

theorem fixed_inv_init (g : Globals) (ssid : String) (p2 : Option String) (hwaddr : Fin 6 → Nat) :
    fixed_inv { ssid := ssid, password := p2.getD "" }
      (WIFI_Initialize g (some ssid) p2 hwaddr).st ∧
    (WIFI_Initialize g (some ssid) p2 hwaddr).st.WIFI_state = .wifi_connect := by
  cases p2 <;> simp [WIFI_Initialize, fixed_inv, in_connect_cycle, os_strcpy]

theorem do_wifi_check_eq (g : Globals) (env : Env) :
    do_wifi_check g env =
      ⟨if env.connect_status % 256 = STATION_GOT_IP then .wifi_connect_done
       else .wifi_connect_fail, g, []⟩ := by
  unfold do_wifi_check
  simp only [STATION_IDLE, STATION_GOT_IP, STATION_WRONG_PASSWORD, STATION_NO_AP_FOUND,
    STATION_CONNECT_FAIL]
  split_ifs <;> first | rfl | omega

theorem fixed_inv_step (cfg : station_config) (g : Globals) (env : Env)
    (h : fixed_inv cfg g) : fixed_inv cfg (WIFI_Run g env).st := by
  obtain ⟨hm, hmesh, hcfg, hs⟩ := h
  unfold in_connect_cycle at hs
  rcases hs with hs | hs | hs | hs | hs
  · simp [fixed_inv, in_connect_cycle, WIFI_Run, WIFI_Run_station, WIFI_Run_mesh, hs, hm, hmesh,
      hcfg, do_wifi_connect]
  · by_cases hc : env.connect_check_expired = true
    · by_cases hgot : env.connect_status % 256 = STATION_GOT_IP <;>
      simp [fixed_inv, in_connect_cycle, WIFI_Run, WIFI_Run_station, WIFI_Run_mesh, hs, hm,
          hmesh, hcfg, do_wifi_check_eq, hc, hgot]
    · simp [fixed_inv, in_connect_cycle, WIFI_Run, WIFI_Run_station, WIFI_Run_mesh, hs, hm,
        hmesh, hcfg, hc]
  · simp [fixed_inv, in_connect_cycle, WIFI_Run, WIFI_Run_station, WIFI_Run_mesh, hs, hm, hmesh,
      hcfg, do_wifi_connect_done]
  · simp [fixed_inv, in_connect_cycle, WIFI_Run, WIFI_Run_station, WIFI_Run_mesh, hs, hm, hmesh,
      hcfg, do_wifi_connect]
  · by_cases hc : env.connect_check_expired = true
    · by_cases hgot : env.connect_status % 256 = STATION_GOT_IP <;>
      simp [fixed_inv, in_connect_cycle, WIFI_Run, WIFI_Run_station, WIFI_Run_mesh, hs, hm,
          hmesh, hcfg, do_wifi_check_eq, hc, hgot]
    · simp [fixed_inv, in_connect_cycle, WIFI_Run, WIFI_Run_station, WIFI_Run_mesh, hs, hm,
        hmesh, hcfg, hc]

theorem fixed_inv_run_polls (cfg : station_config) (envs : List Env) :
    ∀ g : Globals, fixed_inv cfg g → fixed_inv cfg (run_polls g envs) := by
  induction envs with
  | nil => intro g h; simpa [run_polls] using h
  | cons env rest ih =>
    intro g h
    simp only [run_polls]
    exact ih _ (fixed_inv_step cfg g env h)

theorem fixed_connect_fail_step (cfg : station_config) (g : Globals) (env : Env)
    (h : fixed_inv cfg g) (hs : g.WIFI_state = .wifi_connect_fail) :
    (WIFI_Run g env).st.WIFI_state = .wifi_connect_in_progress ∧
    (WIFI_Run g env).trace =
      connect_commands cfg ++ [.countdown .connect_check_timer CONNECT_CHECK_INTERVAL_SECONDS] := by
  obtain ⟨hm, hmesh, hcfg, _⟩ := h
  simp [WIFI_Run, WIFI_Run_station, WIFI_Run_mesh, hs, hm, hmesh, hcfg, do_wifi_connect,
    connect_commands]

/-- C2. Fixed mode never gives up.  `WIFI_Initialize` with an SSID leaves mode
`ap_fixed` and station state `wifi_connect`; after any sequence of polls,
whatever the timers and the driver answer, the station state is not
`wifi_disabled`; and a poll that starts there in `wifi_connect_fail` sends the
connect commands again with the stored configuration, re-arms the check timer
and leaves `wifi_connect_in_progress`. -/
theorem fixed_mode_never_gives_up (g : Globals) (ssid : String) (p2 : Option String)
    (hwaddr : Fin 6 → Nat) (envs : List Env) :
    (WIFI_Initialize g (some ssid) p2 hwaddr).st.wifi.m_WIFIMode = .ap_fixed ∧
    (WIFI_Initialize g (some ssid) p2 hwaddr).st.WIFI_state = .wifi_connect ∧
    (run_polls (WIFI_Initialize g (some ssid) p2 hwaddr).st envs).WIFI_state ≠ .wifi_disabled ∧
    ((run_polls (WIFI_Initialize g (some ssid) p2 hwaddr).st envs).WIFI_state =
        .wifi_connect_fail →
      ∀ env : Env,
        (WIFI_Run (run_polls (WIFI_Initialize g (some ssid) p2 hwaddr).st envs) env).st.WIFI_state
          = .wifi_connect_in_progress ∧
        (WIFI_Run (run_polls (WIFI_Initialize g (some ssid) p2 hwaddr).st envs) env).trace =
          connect_commands { ssid := ssid, password := p2.getD "" } ++
            [.countdown .connect_check_timer CONNECT_CHECK_INTERVAL_SECONDS]) := by
  have hinit := fixed_inv_init g ssid p2 hwaddr
  have hinv := fixed_inv_run_polls _ envs _ hinit.1
  refine ⟨hinit.1.1, hinit.2, ?_, ?_⟩
  · intro hd
    have hc := hinv.2.2.2
    unfold in_connect_cycle at hc
    rw [hd] at hc
    simp at hc
  · intro hs env
    exact fixed_connect_fail_step _ _ env hinv hs

theorem fixed_mode_never_gives_up_witness :
    (run_polls (WIFI_Initialize (sample_globals .mesh_leaf .none .mesh_none) (some "home")
        (some "secret") sample_hwaddr).st
        [env_quiet, env_check STATION_NO_AP_FOUND]).WIFI_state = .wifi_connect_fail ∧
    (WIFI_Run (run_polls (WIFI_Initialize (sample_globals .mesh_leaf .none .mesh_none)
        (some "home") (some "secret") sample_hwaddr).st
        [env_quiet, env_check STATION_NO_AP_FOUND]) env_quiet).st.WIFI_state =
      .wifi_connect_in_progress :=
  have hfail : (run_polls (WIFI_Initialize (sample_globals .mesh_leaf .none .mesh_none)
      (some "home") (some "secret") sample_hwaddr).st
      [env_quiet, env_check STATION_NO_AP_FOUND]).WIFI_state = .wifi_connect_fail := by
    decide
  ⟨hfail,
   ((fixed_mode_never_gives_up (sample_globals .mesh_leaf .none .mesh_none) "home"
      (some "secret") sample_hwaddr [env_quiet, env_check STATION_NO_AP_FOUND]).2.2.2
      hfail env_quiet).1⟩

/-! ## C3 -/

theorem do_wifi_mesh_check_eq (g : Globals) (env : Env) :
    (do_wifi_mesh_check g env).ret = g.WIFI_Mesh_state ∧ (do_wifi_mesh_check g env).st = g ∧
    ((do_wifi_mesh_check g env).trace = [] ∨
      (do_wifi_mesh_check g env).trace = [.wifi_softap_free_station_info]) := by
  unfold do_wifi_mesh_check
  by_cases h : env.station_info = [] <;> simp [h]

theorem WIFI_Run_mesh_frame (g : Globals) (env : Env) :
    (WIFI_Run_mesh g env).1.WIFI_state = g.WIFI_state ∧
    (WIFI_Run_mesh g env).1.wifi = g.wifi ∧
    (WIFI_Run_mesh g env).1.wifi_best_ssid = g.wifi_best_ssid ∧
    (WIFI_Run_mesh g env).1.wifi_list = g.wifi_list ∧
    ¬ arms_station_timer (WIFI_Run_mesh g env).2 ∧
    (∀ fn a ptr, Effect.OnConnectCallback fn a ptr ∉ (WIFI_Run_mesh g env).2) ∧
    (∀ fn a ptr, Effect.OnDisconnectCallback fn a ptr ∉ (WIFI_Run_mesh g env).2) := by
  obtain ⟨h1, h2, h3⟩ := do_wifi_mesh_check_eq g env
  unfold WIFI_Run_mesh arms_station_timer
  cases hm : g.WIFI_Mesh_state
  case mesh_none => by_cases hd : g.WIFI_state = .wifi_disabled <;> simp [hd]
  case mesh_connect_in_progress =>
    by_cases he : env.mesh_check_expired = true
    · rcases h3 with h3 | h3 <;> simp [he, h2, h3]
    · simp [he]
  all_goals simp [do_wifi_mesh_connect]

theorem disabled_step (g : Globals) (env : Env) (hs : g.WIFI_state = .wifi_disabled) :
    (WIFI_Run g env).st.WIFI_state = .wifi_disabled ∧
    ¬ arms_station_timer (WIFI_Run g env).trace := by
  have hst : WIFI_Run_station g env = (g, []) := by simp [WIFI_Run_station, hs]
  obtain ⟨h1, _, _, _, h5, _⟩ := WIFI_Run_mesh_frame g env
  simp only [WIFI_Run, hst, List.nil_append]
  exact ⟨h1.trans hs, h5⟩

theorem disabled_run_polls (envs : List Env) :
    ∀ g : Globals, g.WIFI_state = .wifi_disabled →
      (run_polls g envs).WIFI_state = .wifi_disabled := by
  induction envs with
  | nil => intro g h; simpa [run_polls] using h
  | cons env rest ih =>
    intro g h
    simp only [run_polls]
    exact ih _ (disabled_step g env h).1

/-- C3. Connect timeout is fatal for non-fixed modes.  In every mode other than
`ap_fixed`, a poll that starts in `wifi_connect_in_progress` with the timeout
timer expired leaves `wifi_disabled`, whatever the check timer and the driver
status are; after any further polls the station state is still
`wifi_disabled`, and each of those polls arms neither the check timer nor the
timeout timer.  More generally every poll that starts in `wifi_disabled` ends
in `wifi_disabled` and arms no station timer, whatever the timers report. -/
theorem connect_timeout_is_fatal (g : Globals) (env : Env)
    (hmode : g.wifi.m_WIFIMode ≠ .ap_fixed)
    (hs : g.WIFI_state = .wifi_connect_in_progress)
    (ht : env.connect_timeout_expired = true) :
    (WIFI_Run g env).st.WIFI_state = .wifi_disabled ∧
    (∀ (later : List Env) (env' : Env),
      (run_polls (WIFI_Run g env).st later).WIFI_state = .wifi_disabled ∧
      (WIFI_Run (run_polls (WIFI_Run g env).st later) env').st.WIFI_state = .wifi_disabled ∧
      ¬ arms_station_timer (WIFI_Run (run_polls (WIFI_Run g env).st later) env').trace) ∧
    (∀ (g' : Globals) (env' : Env), g'.WIFI_state = .wifi_disabled →
      (WIFI_Run g' env').st.WIFI_state = .wifi_disabled ∧
      ¬ arms_station_timer (WIFI_Run g' env').trace) := by
  have hfirst : (WIFI_Run g env).st.WIFI_state = .wifi_disabled := by
    have hst : WIFI_Run_station g env = ({ g with WIFI_state := .wifi_disabled }, []) := by
      simp [WIFI_Run_station, hs, hmode, ht]
    have := (WIFI_Run_mesh_frame { g with WIFI_state := .wifi_disabled } env).1
    simp only [WIFI_Run, hst]
    exact this
  refine ⟨hfirst, ?_, fun g' env' hd => disabled_step g' env' hd⟩
  intro later env'
  have hl := disabled_run_polls later _ hfirst
  exact ⟨hl, disabled_step _ env' hl⟩

theorem connect_timeout_is_fatal_witness :
    (sample_globals .mesh_root .wifi_connect_in_progress .mesh_none).wifi.m_WIFIMode ≠ .ap_fixed ∧
    (WIFI_Run (sample_globals .mesh_root .wifi_connect_in_progress .mesh_none)
      (env_all_expired STATION_GOT_IP)).st.WIFI_state = .wifi_disabled :=
  ⟨by decide,
   (connect_timeout_is_fatal (sample_globals .mesh_root .wifi_connect_in_progress .mesh_none)
      (env_all_expired STATION_GOT_IP) (by decide) rfl rfl).1⟩

/-! ## C4 -/

/-- C4, as stated, fails.  A mesh non-leaf node starts with the station state
`wifi_disabled`; its first poll triggers the mesh scan, and the completion of
that scan moves the station state to `wifi_scan_done` (to `wifi_scan_fail` when
the scan failed).  A `WIFI_disconnect` request also leaves `wifi_disabled`. -/
theorem disabled_left_by_scan_and_disconnect :
    (WIFI_MeshInitialize (sample_globals .ap_fixed .none .mesh_none) .mesh_non_leaf none none
        "mesh" "group" sample_hwaddr).st.WIFI_state = .wifi_disabled ∧
    (run_events (WIFI_MeshInitialize (sample_globals .ap_fixed .none .mesh_none) .mesh_non_leaf
        none none "mesh" "group" sample_hwaddr).st
        [.poll env_quiet, .scan_done [] .OK]).WIFI_state = .wifi_scan_done ∧
    (run_events (WIFI_MeshInitialize (sample_globals .ap_fixed .none .mesh_none) .mesh_non_leaf
        none none "mesh" "group" sample_hwaddr).st
        [.poll env_quiet, .scan_done [] .FAIL]).WIFI_state = .wifi_scan_fail ∧
    (run_events (WIFI_MeshInitialize (sample_globals .ap_fixed .none .mesh_none) .mesh_non_leaf
        none none "mesh" "group" sample_hwaddr).st
        [.poll env_quiet, .disconnect]).WIFI_state = .wifi_disconnect := by
  decide

/-- C4, amended.  Once the station state is `wifi_disabled` it is still
`wifi_disabled` after every sequence of polls, in every mode and whatever the
timers and the driver answer; a `WIFI_connect` request sets it to
`wifi_connect` and a `WIFI_disconnect` request sets it to `wifi_disconnect`. -/
theorem disabled_terminal_under_polls (g : Globals) (hs : g.WIFI_state = .wifi_disabled) :
    (∀ envs : List Env, (run_polls g envs).WIFI_state = .wifi_disabled) ∧
    (WIFI_connect g).st.WIFI_state = .wifi_connect ∧
    (WIFI_disconnect g).st.WIFI_state = .wifi_disconnect :=
  ⟨fun envs => disabled_run_polls envs g hs, rfl, rfl⟩

theorem disabled_terminal_under_polls_witness :
    (sample_globals .ap_fixed_auto .wifi_disabled .mesh_connect).WIFI_state = .wifi_disabled ∧
    (run_polls (sample_globals .ap_fixed_auto .wifi_disabled .mesh_connect)
      [env_all_expired STATION_GOT_IP, env_quiet]).WIFI_state = .wifi_disabled :=
  ⟨rfl,
   (disabled_terminal_under_polls (sample_globals .ap_fixed_auto .wifi_disabled .mesh_connect)
      rfl).1 [env_all_expired STATION_GOT_IP, env_quiet]⟩

/-! ## C5 -/

/-- C5 fails on the code.  When its second scan completes the station still
holds the winner of the first one, the entry of "home".  A successful scan
that saw no known network leaves that winner in place, where the same
notification processed with no winner held leaves none; the next poll then
goes to `wifi_connect` with the stale entry instead of scanning again. -/
theorem stale_scan_winner_survives :
    globals_at_second_scan.WIFI_state = .wifi_scan_in_progress ∧
    globals_at_second_scan.wifi_best_ssid = some { ssid := "home", psw := some "secret" } ∧
    (scan_done_callback globals_at_second_scan [net_guest] .OK).wifi_best_ssid =
      some { ssid := "home", psw := some "secret" } ∧
    (scan_done_callback { globals_at_second_scan with wifi_best_ssid := none }
      [net_guest] .OK).wifi_best_ssid = none ∧
    (WIFI_Run (scan_done_callback globals_at_second_scan [net_guest] .OK)
      env_quiet).st.WIFI_state = .wifi_connect := by
  decide

/-! ## C6 -/

/-- C6, as stated, fails.  With no winner held, a successful scan that saw the
known network "home" at strength -127, or at -128, leaves no winner: the
running maximum starts at -127 and only a strictly greater strength replaces
it. -/
theorem known_network_at_seed_is_not_selected :
    (sample_globals .ap_fixed_auto .wifi_scan_in_progress .mesh_disabled).wifi_best_ssid = none ∧
    known (sample_globals .ap_fixed_auto .wifi_scan_in_progress .mesh_disabled)
      net_home_at_seed.ssid ∧
    (scan_done_callback (sample_globals .ap_fixed_auto .wifi_scan_in_progress .mesh_disabled)
      [net_home_at_seed] .OK).wifi_best_ssid = none ∧
    (scan_done_callback (sample_globals .ap_fixed_auto .wifi_scan_in_progress .mesh_disabled)
      [net_home_at_min] .OK).wifi_best_ssid = none := by
  decide

theorem scan_best_none_iff (g : Globals) (arg : List bss_info)
    (h_none : g.wifi_best_ssid = none) :
    (scan_done_callback g arg .OK).wifi_best_ssid = none ↔
      ∀ b ∈ arg, known g b.ssid → b.rssi ≤ -127 := by
  rw [scan_done_callback_OK_best, h_none]
  obtain ⟨h1, _, h3⟩ := scan_loop_spec g arg (-127) none
  constructor
  · intro hnone b hb hk
    rcases h3 with h3 | ⟨b', _, hk', _, heq⟩
    · have := h1 b hb hk
      rw [h3] at this
      exact this
    · rw [heq] at hnone
      have hsome := (wifi_find_ssid_isSome g b'.ssid).2 hk'
      simp only at hnone
      rw [hnone] at hsome
      simp at hsome
  · intro hall
    rcases h3 with h3 | ⟨b', hb', hk', hlt, _⟩
    · rw [h3]
    · have := hall b' hb' hk'
      omega

/-- C6, amended.  After a successful scan notification processed while no
winner is held, there is still no winner exactly when no network of the
result list is both known to the registry and stronger than -127. -/
theorem scan_winner_none_iff (g : Globals) (arg : List bss_info)
    (h_none : g.wifi_best_ssid = none) :
    (scan_done_callback g arg .OK).wifi_best_ssid = none ↔
      ∀ b ∈ arg, known g b.ssid → b.rssi ≤ -127 :=
  scan_best_none_iff g arg h_none

theorem scan_winner_none_iff_witness :
    (sample_globals .ap_fixed_auto .wifi_scan_in_progress .mesh_disabled).wifi_best_ssid = none ∧
    (∀ b ∈ [net_guest, net_home_at_seed],
      known (sample_globals .ap_fixed_auto .wifi_scan_in_progress .mesh_disabled) b.ssid →
        b.rssi ≤ -127) ∧
    (scan_done_callback (sample_globals .ap_fixed_auto .wifi_scan_in_progress .mesh_disabled)
        [net_guest, net_home_at_seed] .OK).wifi_best_ssid = none ∧
    ¬ (scan_done_callback (sample_globals .ap_fixed_auto .wifi_scan_in_progress .mesh_disabled)
        [net_guest, net_home] .OK).wifi_best_ssid = none :=
  have h : ∀ b ∈ [net_guest, net_home_at_seed],
      known (sample_globals .ap_fixed_auto .wifi_scan_in_progress .mesh_disabled) b.ssid →
        b.rssi ≤ -127 := by
    decide
  ⟨rfl, h,
   (scan_winner_none_iff (sample_globals .ap_fixed_auto .wifi_scan_in_progress .mesh_disabled)
     [net_guest, net_home_at_seed] rfl).2 h,
   fun hn => absurd
     ((scan_winner_none_iff (sample_globals .ap_fixed_auto .wifi_scan_in_progress .mesh_disabled)
       [net_guest, net_home] rfl).1 hn net_home (by simp) (by decide)) (by decide)⟩

/-! ## C7 -/

theorem do_wifi_scan_done_none (g : Globals) (h : g.wifi_best_ssid = none) :
    do_wifi_scan_done g = ⟨.wifi_scan, g, []⟩ := by
  simp [do_wifi_scan_done, h]

/-- C7. Zero matches retry the scan.  When no network of a successful scan is
known to the registry and no winner is held before the notification, there is
no winner after it, the station state is `wifi_scan_done`, and the next poll
moves the station state to `wifi_scan` and leaves the station configuration as
it was before the notification. -/
theorem zero_matches_retry_scan (g : Globals) (arg : List bss_info) (env : Env)
    (h_none : g.wifi_best_ssid = none)
    (h_unknown : ∀ b ∈ arg, ¬ known g b.ssid) :
    (scan_done_callback g arg .OK).wifi_best_ssid = none ∧
    (scan_done_callback g arg .OK).WIFI_state = .wifi_scan_done ∧
    (scan_done_callback g arg .OK).wifi.m_StationConfig = g.wifi.m_StationConfig ∧
    (WIFI_Run (scan_done_callback g arg .OK) env).st.WIFI_state = .wifi_scan ∧
    (WIFI_Run (scan_done_callback g arg .OK) env).st.WIFI_state ≠ .wifi_connect ∧
    (WIFI_Run (scan_done_callback g arg .OK) env).st.wifi.m_StationConfig =
      g.wifi.m_StationConfig ∧
    (WIFI_Run (scan_done_callback g arg .OK) env).st.wifi_best_ssid = none := by
  have hbest : (scan_done_callback g arg .OK).wifi_best_ssid = none :=
    (scan_best_none_iff g arg h_none).2 (fun b hb hk => absurd hk (h_unknown b hb))
  have hstate := scan_done_callback_OK_state g arg
  have hcfg : (scan_done_callback g arg .OK).wifi = g.wifi := by
    unfold scan_done_callback
    by_cases h : g.WIFI_Mesh_state = .mesh_disabled <;> simp [h]
  have hst : WIFI_Run_station (scan_done_callback g arg .OK) env =
      ({ scan_done_callback g arg .OK with WIFI_state := .wifi_scan }, []) := by
    simp [WIFI_Run_station, hstate, do_wifi_scan_done_none _ hbest]
  obtain ⟨m1, m2, m3, _⟩ :=
    WIFI_Run_mesh_frame { scan_done_callback g arg .OK with WIFI_state := .wifi_scan } env
  have hrun : (WIFI_Run (scan_done_callback g arg .OK) env).st.WIFI_state = .wifi_scan := by
    simp only [WIFI_Run, hst]
    exact m1
  refine ⟨hbest, hstate, by rw [hcfg], hrun, by rw [hrun]; decide, ?_, ?_⟩
  · simp only [WIFI_Run, hst]
    rw [m2]
    simp [hcfg]
  · simp only [WIFI_Run, hst]
    rw [m3]
    exact hbest

theorem zero_matches_retry_scan_witness :
    (∀ b ∈ [net_guest],
      ¬ known (sample_globals .ap_fixed_auto .wifi_scan_in_progress .mesh_disabled) b.ssid) ∧
    (WIFI_Run (scan_done_callback
      (sample_globals .ap_fixed_auto .wifi_scan_in_progress .mesh_disabled) [net_guest] .OK)
      env_quiet).st.WIFI_state = .wifi_scan :=
  have h : ∀ b ∈ [net_guest],
      ¬ known (sample_globals .ap_fixed_auto .wifi_scan_in_progress .mesh_disabled) b.ssid := by
    decide
  ⟨h,
   (zero_matches_retry_scan (sample_globals .ap_fixed_auto .wifi_scan_in_progress .mesh_disabled)
     [net_guest] env_quiet rfl h).2.2.2.1⟩

/-! ## C8 -/

theorem on_connect_calls_append (a b : List Effect) :
    on_connect_calls (a ++ b) = on_connect_calls a ++ on_connect_calls b := by
  simp [on_connect_calls]

theorem on_connect_calls_mesh (g : Globals) (env : Env) :
    on_connect_calls (WIFI_Run_mesh g env).2 = [] := by
  have h := (WIFI_Run_mesh_frame g env).2.2.2.2.2.1
  unfold on_connect_calls
  rw [List.filter_eq_nil_iff]
  intro e he
  cases e <;> simp
  case OnConnectCallback fn a ptr => exact h fn a ptr he

theorem on_connect_calls_run (g : Globals) (env : Env) :
    on_connect_calls (WIFI_Run g env).trace = on_connect_calls (WIFI_Run_station g env).2 := by
  simp only [WIFI_Run, on_connect_calls_append, on_connect_calls_mesh, List.append_nil]

theorem do_wifi_connect_done_frame (g : Globals) (env : Env) :
    (do_wifi_connect_done g env).ret = .wifi_ready ∧
    (do_wifi_connect_done g env).st.wifi.m_OnConnectCallback = g.wifi.m_OnConnectCallback ∧
    (do_wifi_connect_done g env).st.wifi.m_CallbackPtr = g.wifi.m_CallbackPtr ∧
    on_connect_calls (do_wifi_connect_done g env).trace = [] := by
  unfold do_wifi_connect_done
  cases hm : g.wifi.m_WIFIMode <;> simp [hm, build_mesh_ap_ssid, on_connect_calls]

theorem on_connect_calls_station_done (g : Globals) (env : Env)
    (hs : g.WIFI_state = .wifi_connect_done) :
    (WIFI_Run_station g env).1.WIFI_state = .wifi_ready ∧
    on_connect_calls (WIFI_Run_station g env).2 =
      if g.wifi.m_OnConnectCallback ≠ 0 then
        [.OnConnectCallback g.wifi.m_OnConnectCallback 1 g.wifi.m_CallbackPtr]
      else [] := by
  obtain ⟨h1, h2, h3, h4⟩ := do_wifi_connect_done_frame g env
  by_cases hcb : g.wifi.m_OnConnectCallback = 0
  · simp [WIFI_Run_station, hs, h1, h2, h3, h4, hcb, on_connect_calls_append]
    simp [on_connect_calls]
  · simp [WIFI_Run_station, hs, h1, h2, h3, h4, hcb, on_connect_calls_append]
    simp [on_connect_calls]

theorem on_connect_calls_station_other (g : Globals) (env : Env)
    (hs : g.WIFI_state ≠ .wifi_connect_done) :
    on_connect_calls (WIFI_Run_station g env).2 = [] := by
  unfold WIFI_Run_station
  cases hst : g.WIFI_state
  case wifi_connect_done => exact absurd hst hs
  case wifi_connect =>
    cases hm : g.wifi.m_WIFIMode <;> simp [do_wifi_connect, hm, on_connect_calls]
  case wifi_connect_fail =>
    cases hm : g.wifi.m_WIFIMode <;> simp [do_wifi_connect, hm, on_connect_calls]
  case wifi_connect_in_progress =>
    simp only [do_wifi_check_eq]
    split_ifs <;> simp [on_connect_calls]
  case wifi_ready =>
    simp only [do_wifi_check_eq]
    split_ifs <;> simp [on_connect_calls]
  case wifi_disconnect =>
    cases hm : g.wifi.m_WIFIMode <;>
      simp [do_wifi_disconnect, hm, on_connect_calls, build_mesh_ap_ssid]
  case wifi_disconnect_done =>
    simp only [do_wifi_disconnect_done]
    split_ifs <;> simp [on_connect_calls]
  case wifi_scan_fail =>
    split_ifs <;> simp [on_connect_calls, do_wifi_scan]
  case wifi_scan_done =>
    cases hb : g.wifi_best_ssid <;> simp [do_wifi_scan_done, hb, on_connect_calls]
  all_goals simp [on_connect_calls, do_wifi_scan]

/-- C8. on-connect fires exactly once per transition into Ready.  A poll that
starts in `wifi_connect_done` ends in `wifi_ready` and, when an on-connect
callback is registered, invokes it exactly once, with the arguments 1 and the
registered context pointer.  A poll that starts in any other station state
never invokes it; in particular a poll that starts in `wifi_ready` does not,
whatever the check timer and the driver status are. -/
theorem on_connect_fires_once (g : Globals) (env : Env) :
    (g.WIFI_state = .wifi_connect_done →
      (WIFI_Run g env).st.WIFI_state = .wifi_ready ∧
      (g.wifi.m_OnConnectCallback ≠ 0 →
        on_connect_calls (WIFI_Run g env).trace =
          [.OnConnectCallback g.wifi.m_OnConnectCallback 1 g.wifi.m_CallbackPtr])) ∧
    (g.WIFI_state ≠ .wifi_connect_done → on_connect_calls (WIFI_Run g env).trace = []) ∧
    (g.WIFI_state = .wifi_ready → on_connect_calls (WIFI_Run g env).trace = []) := by
  refine ⟨?_, ?_, ?_⟩
  · intro hs
    obtain ⟨h1, h2⟩ := on_connect_calls_station_done g env hs
    refine ⟨?_, ?_⟩
    · have := (WIFI_Run_mesh_frame (WIFI_Run_station g env).1 env).1
      simp only [WIFI_Run]
      rw [this, h1]
    · intro hcb
      rw [on_connect_calls_run, h2, if_pos hcb]
  · intro hs
    rw [on_connect_calls_run, on_connect_calls_station_other g env hs]
  · intro hs
    rw [on_connect_calls_run, on_connect_calls_station_other g env (by rw [hs]; decide)]

theorem on_connect_fires_once_witness :
    (WIFI_SetCallback (sample_globals .mesh_root .wifi_connect_done .mesh_none)
      4096 8192 77).st.wifi.m_OnConnectCallback ≠ 0 ∧
    on_connect_calls (WIFI_Run (WIFI_SetCallback
      (sample_globals .mesh_root .wifi_connect_done .mesh_none) 4096 8192 77).st
      (env_all_expired STATION_IDLE)).trace = [.OnConnectCallback 4096 1 77] :=
  ⟨by decide,
   ((on_connect_fires_once (WIFI_SetCallback
      (sample_globals .mesh_root .wifi_connect_done .mesh_none) 4096 8192 77).st
      (env_all_expired STATION_IDLE)).1 rfl).2 (by decide)⟩

/-! ## C9 -/

/-- C9. WIFI_IsConnected reflects Ready.  In the modes `ap_fixed`,
`ap_fixed_auto` and `mesh_root` it returns 1 when the station state is
`wifi_ready` and 0 otherwise, so it returns 1 exactly in `wifi_ready`; in the
modes `mesh_non_leaf` and `mesh_leaf` it returns 0 in every state; it leaves
the statics as they are and sends no command. -/
theorem is_connected_reflects_ready (g : Globals) :
    ((g.wifi.m_WIFIMode = .ap_fixed ∨ g.wifi.m_WIFIMode = .ap_fixed_auto ∨
        g.wifi.m_WIFIMode = .mesh_root) →
      (WIFI_IsConnected g).ret = (if g.WIFI_state = .wifi_ready then 1 else 0) ∧
      ((WIFI_IsConnected g).ret = 1 ↔ g.WIFI_state = .wifi_ready)) ∧
    ((g.wifi.m_WIFIMode = .mesh_non_leaf ∨ g.wifi.m_WIFIMode = .mesh_leaf) →
      (WIFI_IsConnected g).ret = 0) ∧
    (WIFI_IsConnected g).st = g ∧
    (WIFI_IsConnected g).trace = [] := by
  unfold WIFI_IsConnected
  cases hm : g.wifi.m_WIFIMode <;> by_cases hs : g.WIFI_state = .wifi_ready <;> simp [hs]

theorem is_connected_reflects_ready_witness :
    (WIFI_IsConnected (sample_globals .mesh_root .wifi_ready .mesh_none)).ret = 1 ∧
    (WIFI_IsConnected (sample_globals .mesh_leaf .wifi_ready .mesh_connect)).ret = 0 :=
  ⟨((is_connected_reflects_ready (sample_globals .mesh_root .wifi_ready .mesh_none)).1
      (Or.inr (Or.inr rfl))).2.2 rfl,
   (is_connected_reflects_ready (sample_globals .mesh_leaf .wifi_ready .mesh_connect)).2.1
      (Or.inr rfl)⟩

/-! ## C10 -/

theorem c_str_status (status : Char) (h : status ≠ '\x00') :
    c_str [status, '\x00'] = String.singleton status := by
  simp [c_str, List.takeWhile, h, String.singleton, String.push, String.ext_iff]

/-- C10. Mesh SSID assembly is the exact concatenation.  For every stored
prefix, every stored postfix and every status character (a character of a C
string, so not NUL), `build_mesh_ap_ssid(status)` returns 0, sets the broadcast
SSID to the prefix, "_", the status character, "_" and the postfix, in that
order, and changes nothing else; for "mesh", '1' and "AABBCCDDEEFF" the SSID is
"mesh_1_AABBCCDDEEFF". -/
theorem mesh_ssid_is_concatenation (g : Globals) (status : Char) (h : status ≠ '\x00') :
    (build_mesh_ap_ssid g status).ret = 0 ∧
    (build_mesh_ap_ssid g status).st.wifi_mesh.m_ApConfig.ssid =
      g.mesh_prefix ++ "_" ++ String.singleton status ++ "_" ++ g.mesh_postfix ∧
    (build_mesh_ap_ssid g status).st =
      { g with wifi_mesh := { g.wifi_mesh with m_ApConfig :=
          { g.wifi_mesh.m_ApConfig with
            ssid := g.mesh_prefix ++ "_" ++ String.singleton status ++ "_" ++ g.mesh_postfix } } } ∧
    (( g.mesh_prefix = "mesh" ∧ status = '1' ∧ g.mesh_postfix = "AABBCCDDEEFF") →
      (build_mesh_ap_ssid g status).st.wifi_mesh.m_ApConfig.ssid = "mesh_1_AABBCCDDEEFF") := by
  have hssid : (build_mesh_ap_ssid g status).st.wifi_mesh.m_ApConfig.ssid =
      g.mesh_prefix ++ "_" ++ String.singleton status ++ "_" ++ g.mesh_postfix := by
    simp [build_mesh_ap_ssid, os_strcpy, os_strcat, c_str_status status h]
  refine ⟨rfl, hssid, ?_, ?_⟩
  · simp [build_mesh_ap_ssid, os_strcpy, os_strcat, c_str_status status h]
  · rintro ⟨hp, hst, hq⟩
    rw [hssid, hp, hst, hq]
    decide

theorem mesh_ssid_is_concatenation_witness :
    MESH_STATUS_CONNECTED ≠ '\x00' ∧
    (build_mesh_ap_ssid
      { sample_globals .mesh_root .wifi_connect_done .mesh_none with
        mesh_prefix := "mesh", mesh_postfix := "AABBCCDDEEFF" }
      MESH_STATUS_CONNECTED).st.wifi_mesh.m_ApConfig.ssid = "mesh_1_AABBCCDDEEFF" :=
  ⟨by decide,
   (mesh_ssid_is_concatenation
      { sample_globals .mesh_root .wifi_connect_done .mesh_none with
        mesh_prefix := "mesh", mesh_postfix := "AABBCCDDEEFF" }
      MESH_STATUS_CONNECTED (by decide)).2.2.2 ⟨rfl, rfl, rfl⟩⟩

/-! ## C11 -/

theorem fmt_02x_length (upper : Bool) (b : Nat) : (fmt_02x upper b).length = 2 := by
  simp [fmt_02x, String.length]

theorem sprintf_02X6_length (hwaddr : Fin 6 → Nat) : (sprintf_02X6 hwaddr).length = 12 := by
  simp [sprintf_02X6, String.length_append, fmt_02x_length]

theorem c_str_status_length (status : Char) :
    (c_str [status, '\x00']).length = if status = '\x00' then 0 else 1 := by
  by_cases h : status = '\x00'
  · subst h
    simp [c_str, String.length]
  · simp [c_str, String.length, List.takeWhile, h]

theorem build_mesh_ap_ssid_length (g : Globals) (status : Char) :
    (build_mesh_ap_ssid g status).st.wifi_mesh.m_ApConfig.ssid.length =
      (Globals.mesh_prefix g).length + 2 + (if status = '\x00' then 0 else 1) +
        (Globals.mesh_postfix g).length := by
  simp only [build_mesh_ap_ssid, os_strcpy, os_strcat, String.length_append,
    c_str_status_length]
  have : ("_" : String).length = 1 := rfl
  omega

theorem WIFI_MeshInitialize_identity (g : Globals) (mode : WIFI_Mode) (ssid pass : Option String)
    (pfx group : String) (hwaddr : Fin 6 → Nat) :
    Globals.mesh_prefix (WIFI_MeshInitialize g mode ssid pass pfx group hwaddr).st = pfx ∧
    Globals.mesh_postfix (WIFI_MeshInitialize g mode ssid pass pfx group hwaddr).st =
      sprintf_02X6 hwaddr ∧
    (WIFI_MeshInitialize g mode ssid pass pfx group hwaddr).st.mesh_status = MESH_STATUS_NONE := by
  cases mode <;> simp [WIFI_MeshInitialize, build_mesh_ap_ssid, os_strcpy]

theorem os_strcpy_into_fits (size : Nat) (dst src : String) (h : src.length + 1 ≤ size) :
    os_strcpy_into size dst src = some src := by
  simp [os_strcpy_into, os_strcpy, h]

theorem os_strcat_into_fits (size : Nat) (dst src : String)
    (h : dst.length + src.length + 1 ≤ size) :
    os_strcat_into size dst src = some (dst ++ src) := by
  simp [os_strcat_into, os_strcat, h]

theorem build_mesh_ap_ssid_bounded_fits (g : Globals) (status : Char)
    (h : (Globals.mesh_prefix g).length + 2 + (if status = '\x00' then 0 else 1) +
      (Globals.mesh_postfix g).length + 1 ≤ SSID_SIZE) :
    build_mesh_ap_ssid_bounded g status = some (build_mesh_ap_ssid g status) := by
  have hu : ("_" : String).length = 1 := rfl
  have hc := c_str_status_length status
  unfold build_mesh_ap_ssid_bounded
  rw [os_strcpy_into_fits _ _ _ (by omega)]
  simp only [Option.bind_eq_bind, Option.some_bind]
  rw [os_strcat_into_fits _ _ _ (by omega)]
  simp only [Option.some_bind]
  rw [os_strcat_into_fits _ _ _ (by simp only [String.length_append]; omega)]
  simp only [Option.some_bind]
  rw [os_strcat_into_fits _ _ _ (by simp only [String.length_append]; omega)]
  simp only [Option.some_bind]
  rw [os_strcat_into_fits _ _ _ (by simp only [String.length_append]; omega)]
  simp [build_mesh_ap_ssid, os_strcpy, os_strcat]

theorem station_config_copies_fit (ssid pass : Option String)
    (hs : ∀ s : String, ssid = some s → s.length + 1 ≤ SSID_SIZE)
    (hp : ∀ p : String, pass = some p → p.length + 1 ≤ PASSWORD_SIZE) :
    station_config_copies ssid pass = some () := by
  unfold station_config_copies
  cases ssid with
  | none => rfl
  | some s =>
    cases pass with
    | none => simp [os_strcpy_into_fits _ _ _ (hs s rfl)]
    | some p =>
      simp [os_strcpy_into_fits _ _ _ (hs s rfl), os_strcpy_into_fits _ _ _ (hp p rfl)]

theorem sprintf_MACSTR_length (hwaddr : Fin 6 → Nat) : (sprintf_MACSTR hwaddr).length = 17 := by
  have hu : (":" : String).length = 1 := rfl
  simp [sprintf_MACSTR, String.length_append, fmt_02x_length, hu]

theorem WIFI_MeshInitialize_bounded_fits (g : Globals) (mode : WIFI_Mode)
    (ssid pass : Option String) (pfx group : String) (hwaddr : Fin 6 → Nat)
    (hpfx : pfx.length + 1 ≤ MESH_PREFIX_SIZE)
    (hs : ∀ s : String, ssid = some s → s.length + 1 ≤ SSID_SIZE)
    (hp : ∀ p : String, pass = some p → p.length + 1 ≤ PASSWORD_SIZE) :
    WIFI_MeshInitialize_bounded g mode ssid pass pfx group hwaddr =
      some (WIFI_MeshInitialize g mode ssid pass pfx group hwaddr) := by
  have h5 : ("AbCdE" : String).length = 5 := by decide
  have hmac := sprintf_MACSTR_length hwaddr
  have hpost := sprintf_02X6_length hwaddr
  unfold WIFI_MeshInitialize_bounded
  rw [os_strcpy_into_fits _ _ _ hpfx,
    os_strcpy_into_fits _ _ _ (by rw [h5]; decide),
    os_strcpy_into_fits _ _ _ (by rw [hmac]; decide),
    os_strcpy_into_fits _ _ _ (by rw [hpost]; decide)]
  simp only [Option.bind_eq_bind, Option.some_bind]
  cases mode
  case mesh_root =>
    have hb := build_mesh_ap_ssid_bounded_fits
      { g with mesh_prefix := pfx, mesh_postfix := sprintf_02X6 hwaddr } MESH_STATUS_NONE
      (by
        simp only [hpost, MESH_STATUS_NONE]
        unfold MESH_PREFIX_SIZE at hpfx
        unfold SSID_SIZE
        split_ifs <;> omega)
    simp [station_config_copies_fit ssid pass hs hp, hb]
  case ap_fixed => simp [station_config_copies_fit ssid pass hs hp]
  all_goals rfl

/-- C11, as stated, fails.  A prefix of 14 bytes is one byte more than
`mesh_prefix[14]` holds with its terminating NUL: the copy `WIFI_MeshInitialize`
makes of it overruns the buffer, so the call has no defined result, and with
it no assembled SSID that the limit of 32 bytes could be checked on.  The same
holds for a prefix of 23 bytes. -/
theorem long_prefix_overruns_mesh_prefix :
    mesh_prefix_of_14.length = 14 ∧
    (WIFI_MeshInitialize_bounded (sample_globals .ap_fixed .none .mesh_none) .mesh_root
      (some "home") (some "secret") mesh_prefix_of_14 "group" sample_hwaddr).isNone = true ∧
    (os_strcpy_into MESH_PREFIX_SIZE "" mesh_prefix_of_14).isNone = true ∧
    long_mesh_prefix.length = 23 ∧
    (WIFI_MeshInitialize_bounded (sample_globals .ap_fixed .none .mesh_none) .mesh_leaf
      none none long_mesh_prefix "group" sample_hwaddr).isNone = true ∧
    ¬ ∃ r : Res Int,
      WIFI_MeshInitialize_bounded (sample_globals .ap_fixed .none .mesh_none) .mesh_root
        (some "home") (some "secret") mesh_prefix_of_14 "group" sample_hwaddr = some r ∧
      r.st.wifi_mesh.m_ApConfig.ssid.length ≤ SSID_LIMIT := by
  have h1 : (WIFI_MeshInitialize_bounded (sample_globals .ap_fixed .none .mesh_none) .mesh_root
      (some "home") (some "secret") mesh_prefix_of_14 "group" sample_hwaddr).isNone = true := by
    decide
  refine ⟨by decide, h1, by decide, by decide, by decide, ?_⟩
  rintro ⟨r, hr, _⟩
  rw [hr] at h1
  simp at h1

/-- C11, amended.  For every prefix of at most 13 bytes passed to
`WIFI_MeshInitialize` and every hardware address, the copy of the prefix fits
`mesh_prefix[14]`; the SSID `build_mesh_ap_ssid` then assembles fits the
32-byte buffer, is at most 15 bytes longer than the prefix for every status
character and exactly 15 bytes longer for a status character other than NUL,
hence at most 28 bytes and within the limit of 32.  When `ssid` and `pass`
fit their buffers as well, the whole call stays within its buffers. -/
theorem mesh_ssid_within_limit (g : Globals) (mode : WIFI_Mode) (ssid pass : Option String)
    (pfx group : String) (hwaddr : Fin 6 → Nat) (status : Char) (hpfx : pfx.length ≤ 13) :
    os_strcpy_into MESH_PREFIX_SIZE (Globals.mesh_prefix g) pfx = some pfx ∧
    ((∀ s : String, ssid = some s → s.length + 1 ≤ SSID_SIZE) →
      (∀ p : String, pass = some p → p.length + 1 ≤ PASSWORD_SIZE) →
      WIFI_MeshInitialize_bounded g mode ssid pass pfx group hwaddr =
        some (WIFI_MeshInitialize g mode ssid pass pfx group hwaddr)) ∧
    build_mesh_ap_ssid_bounded (WIFI_MeshInitialize g mode ssid pass pfx group hwaddr).st status =
      some (build_mesh_ap_ssid (WIFI_MeshInitialize g mode ssid pass pfx group hwaddr).st
        status) ∧
    (build_mesh_ap_ssid (WIFI_MeshInitialize g mode ssid pass pfx group hwaddr).st
      status).st.wifi_mesh.m_ApConfig.ssid.length ≤ pfx.length + 15 ∧
    (status ≠ '\x00' →
      (build_mesh_ap_ssid (WIFI_MeshInitialize g mode ssid pass pfx group hwaddr).st
        status).st.wifi_mesh.m_ApConfig.ssid.length = pfx.length + 15) ∧
    (build_mesh_ap_ssid (WIFI_MeshInitialize g mode ssid pass pfx group hwaddr).st
      status).st.wifi_mesh.m_ApConfig.ssid.length ≤ 28 ∧
    (build_mesh_ap_ssid (WIFI_MeshInitialize g mode ssid pass pfx group hwaddr).st
      status).st.wifi_mesh.m_ApConfig.ssid.length ≤ SSID_LIMIT := by
  obtain ⟨hp, hq, _⟩ := WIFI_MeshInitialize_identity g mode ssid pass pfx group hwaddr
  have hlen := build_mesh_ap_ssid_length
    (WIFI_MeshInitialize g mode ssid pass pfx group hwaddr).st status
  rw [hp, hq, sprintf_02X6_length] at hlen
  have hfit : pfx.length + 1 ≤ MESH_PREFIX_SIZE := by unfold MESH_PREFIX_SIZE; omega
  unfold SSID_LIMIT
  refine ⟨os_strcpy_into_fits _ _ _ hfit,
    fun hs hpw => WIFI_MeshInitialize_bounded_fits g mode ssid pass pfx group hwaddr hfit hs hpw,
    ?_, ?_, ?_, ?_, ?_⟩
  · apply build_mesh_ap_ssid_bounded_fits
    rw [hp, hq, sprintf_02X6_length]
    unfold SSID_SIZE
    split_ifs <;> omega
  · rw [hlen]; split_ifs <;> omega
  · intro h; rw [hlen, if_neg h]
  · rw [hlen]; split_ifs <;> omega
  · rw [hlen]; split_ifs <;> omega

theorem mesh_ssid_within_limit_witness :
    ("mesh-network" : String).length ≤ 13 ∧ MESH_STATUS_CONNECTED ≠ '\x00' ∧
    WIFI_MeshInitialize_bounded (sample_globals .ap_fixed .none .mesh_none) .mesh_root
      (some "home") none "mesh-network" "group" sample_hwaddr =
      some (WIFI_MeshInitialize (sample_globals .ap_fixed .none .mesh_none) .mesh_root
        (some "home") none "mesh-network" "group" sample_hwaddr) ∧
    (build_mesh_ap_ssid (WIFI_MeshInitialize (sample_globals .ap_fixed .none .mesh_none)
      .mesh_root (some "home") none "mesh-network" "group" sample_hwaddr).st
      MESH_STATUS_CONNECTED).st.wifi_mesh.m_ApConfig.ssid.length = 27 :=
  have h := mesh_ssid_within_limit (sample_globals .ap_fixed .none .mesh_none) .mesh_root
    (some "home") none "mesh-network" "group" sample_hwaddr MESH_STATUS_CONNECTED (by decide)
  ⟨by decide, by decide,
   h.2.1 (by intro s hs; cases hs; decide) (by intro p hp; cases hp),
   h.2.2.2.2.1 (by decide)⟩

/-! ## C12 -/

theorem scan_loop_ptr_installed (g : Globals) (arg : List bss_info) :
    ∀ (r : Int) (w : Option WIFI_AP),
      scan_loop_ptr (some g.wifi_list) arg (r, w) = some (scan_loop g arg (r, w)) := by
  induction arg with
  | nil => intro r w; simp [scan_loop_ptr, scan_loop_nil]
  | cons b rest ih =>
    intro r w
    rw [scan_loop, scan_loop_ptr]
    simp only [wifi_find_ssid_ptr, wifi_find_ssid]
    cases hf : wifi_find_ssid_loop b.ssid g.wifi_list with
    | none => simpa using ih r w
    | some s =>
      by_cases hr : b.rssi > r
      · simpa [hr] using ih b.rssi (some s)
      · simpa [hr] using ih r w

theorem scan_done_callback_ptr_installed (g : Globals) (arg : List bss_info) (status : STATUS) :
    scan_done_callback_ptr (some g.wifi_list) g arg status =
      some (scan_done_callback g arg status) := by
  unfold scan_done_callback_ptr scan_done_callback
  cases status <;> simp [scan_loop_ptr_installed]

theorem scan_done_callback_ptr_null (g : Globals) (b : bss_info) (rest : List bss_info) :
    scan_done_callback_ptr none g (b :: rest) .OK = none := by
  simp [scan_done_callback_ptr, scan_loop_ptr, wifi_find_ssid_ptr]

/-- C13 fails on the code.  After reset and `WIFI_MeshInitialize` for a mesh
non-leaf node `wifi_list` is still NULL.  The first poll starts the mesh scan
and leaves the mesh state `mesh_scan_in_progress`.  When that scan completes
with status OK and one network in its result list, `scan_done_callback` calls
`wifi_find_ssid`, which reads through the NULL `wifi_list` and faults: the
assignment of `mesh_scan_done` is not reached.  The same happens in a mesh
root once its connect timeout has started the mesh scan, and for every
non-empty result list.  With an empty list or a status other than OK no
lookup is made and the mesh state becomes `mesh_scan_done`, as it does for
every list once `WIFI_InitializeEx` has stored a registry. -/
theorem mesh_scan_faults_without_registry :
    mesh_non_leaf_from_reset.wifi_list = none ∧
    (Firmware.run_events mesh_non_leaf_from_reset [.poll env_quiet]).map
      (fun f => f.statics.WIFI_Mesh_state) = some .mesh_scan_in_progress ∧
    Firmware.run_events mesh_non_leaf_from_reset
      [.poll env_quiet, .scan_done [net_guest] .OK] = none ∧
    (Firmware.run_events mesh_root_from_reset
      [.poll env_quiet, .poll (env_all_expired STATION_IDLE), .poll env_quiet]).map
      (fun f => f.statics.WIFI_Mesh_state) = some .mesh_scan_in_progress ∧
    Firmware.run_events mesh_root_from_reset
      [.poll env_quiet, .poll (env_all_expired STATION_IDLE), .poll env_quiet,
       .scan_done [net_guest] .OK] = none ∧
    (Firmware.run_events mesh_non_leaf_from_reset
      [.poll env_quiet, .scan_done [] .OK]).map
      (fun f => f.statics.WIFI_Mesh_state) = some .mesh_scan_done ∧
    (Firmware.run_events mesh_non_leaf_from_reset
      [.poll env_quiet, .scan_done [net_guest] .FAIL]).map
      (fun f => f.statics.WIFI_Mesh_state) = some .mesh_scan_done ∧
    (Firmware.run_events
      (Firmware.MeshInitialize (Firmware.InitializeEx firmware_at_reset sample_registry
        sample_hwaddr) .mesh_non_leaf none none "mesh" "group" sample_hwaddr)
      [.poll env_quiet, .scan_done [net_guest] .OK]).map
      (fun f => f.statics.WIFI_Mesh_state) = some .mesh_scan_done ∧
    (∀ (g : Globals) (b : bss_info) (rest : List bss_info),
      scan_done_callback_ptr none g (b :: rest) .OK = none) ∧
    (∀ (g : Globals) (arg : List bss_info) (status : STATUS),
      scan_done_callback_ptr (some g.wifi_list) g arg status =
        some (scan_done_callback g arg status) ∧
      (scan_done_callback g arg status).WIFI_Mesh_state =
        if g.WIFI_Mesh_state = .mesh_disabled then .mesh_disabled else .mesh_scan_done) := by
  refine ⟨by decide, by decide, by decide, by decide, by decide, by decide, by decide,
    by decide, scan_done_callback_ptr_null, ?_⟩
  intro g arg status
  refine ⟨scan_done_callback_ptr_installed g arg status, ?_⟩
  unfold scan_done_callback
  cases status <;> by_cases h : g.WIFI_Mesh_state = .mesh_disabled <;> simp [h]

/-! ## C14 -/

/-- C14. Missing SSID is reported as an initialization failure code.
`WIFI_Initialize` returns -1 when `p1` is NULL and 0 otherwise;
`WIFI_MeshInitialize` returns -1 when the mode is `ap_fixed` or `mesh_root`
and `ssid` is NULL, and 0 in every other case; `WIFI_InitializeEx` returns 0;
whenever -1 is returned the stored SSID and password are both empty. -/
theorem init_failure_codes (g : Globals) (hwaddr : Fin 6 → Nat) :
    (∀ p1 p2 : Option String,
      (WIFI_Initialize g p1 p2 hwaddr).ret = (if p1 = none then -1 else 0) ∧
      ((WIFI_Initialize g p1 p2 hwaddr).ret = -1 ↔ p1 = none) ∧
      ((WIFI_Initialize g p1 p2 hwaddr).ret = -1 →
        (WIFI_Initialize g p1 p2 hwaddr).st.wifi.m_StationConfig = { ssid := "", password := "" })) ∧
    (∀ (mode : WIFI_Mode) (ssid pass : Option String) (pfx group : String),
      (WIFI_MeshInitialize g mode ssid pass pfx group hwaddr).ret =
        (if (mode = .ap_fixed ∨ mode = .mesh_root) ∧ ssid = none then -1 else 0) ∧
      ((WIFI_MeshInitialize g mode ssid pass pfx group hwaddr).ret = -1 ↔
        (mode = .ap_fixed ∨ mode = .mesh_root) ∧ ssid = none) ∧
      ((WIFI_MeshInitialize g mode ssid pass pfx group hwaddr).ret = -1 →
        (WIFI_MeshInitialize g mode ssid pass pfx group hwaddr).st.wifi.m_StationConfig =
          { ssid := "", password := "" })) ∧
    (∀ list : List WIFI_AP, (WIFI_InitializeEx g list hwaddr).ret = 0) := by
  refine ⟨?_, ?_, fun _ => rfl⟩
  · intro p1 p2
    cases p1 <;> simp [WIFI_Initialize]
  · intro mode ssid pass pfx group
    cases mode <;> cases ssid <;> simp [WIFI_MeshInitialize, build_mesh_ap_ssid]

theorem init_failure_codes_witness :
    (WIFI_MeshInitialize (sample_globals .ap_fixed .none .mesh_none) .mesh_root none
      (some "secret") "mesh" "group" sample_hwaddr).ret = -1 ∧
    (WIFI_MeshInitialize (sample_globals .ap_fixed .none .mesh_none) .mesh_root none
      (some "secret") "mesh" "group" sample_hwaddr).st.wifi.m_StationConfig =
        { ssid := "", password := "" } :=
  have h := ((init_failure_codes (sample_globals .ap_fixed .none .mesh_none) sample_hwaddr).2.1
    .mesh_root none (some "secret") "mesh" "group")
  ⟨h.2.1.2 ⟨Or.inr rfl, rfl⟩, h.2.2 (h.2.1.2 ⟨Or.inr rfl, rfl⟩)⟩

/-! ## C15 -/

/-- C15. Initial states by mode.  `WIFI_Initialize` leaves mode `ap_fixed`,
station state `wifi_connect`, mesh state `mesh_disabled` and no scan winner,
whether it returns 0 or -1; `WIFI_InitializeEx` leaves mode `ap_fixed_auto`,
station state `wifi_scan`, mesh state `mesh_disabled` and no scan winner;
`WIFI_MeshInitialize` leaves `wifi_connect` and the idle mesh state for
`mesh_root`, and `wifi_disabled` and `mesh_connect` for `mesh_non_leaf` and
`mesh_leaf`; each of them leaves both callbacks and the context pointer 0. -/
theorem initial_states_by_mode (g : Globals) (hwaddr : Fin 6 → Nat) :
    (∀ p1 p2 : Option String,
      (WIFI_Initialize g p1 p2 hwaddr).st.wifi.m_WIFIMode = .ap_fixed ∧
      (WIFI_Initialize g p1 p2 hwaddr).st.WIFI_state = .wifi_connect ∧
      (WIFI_Initialize g p1 p2 hwaddr).st.WIFI_Mesh_state = .mesh_disabled ∧
      (WIFI_Initialize g p1 p2 hwaddr).st.wifi_best_ssid = none ∧
      (WIFI_Initialize g p1 p2 hwaddr).st.wifi.m_OnConnectCallback = 0 ∧
      (WIFI_Initialize g p1 p2 hwaddr).st.wifi.m_OnDisconnectCallback = 0 ∧
      (WIFI_Initialize g p1 p2 hwaddr).st.wifi.m_CallbackPtr = 0) ∧
    (∀ list : List WIFI_AP,
      (WIFI_InitializeEx g list hwaddr).st.wifi.m_WIFIMode = .ap_fixed_auto ∧
      (WIFI_InitializeEx g list hwaddr).st.WIFI_state = .wifi_scan ∧
      (WIFI_InitializeEx g list hwaddr).st.WIFI_Mesh_state = .mesh_disabled ∧
      (WIFI_InitializeEx g list hwaddr).st.wifi_best_ssid = none ∧
      (WIFI_InitializeEx g list hwaddr).st.wifi_list = list ∧
      (WIFI_InitializeEx g list hwaddr).st.wifi.m_OnConnectCallback = 0 ∧
      (WIFI_InitializeEx g list hwaddr).st.wifi.m_OnDisconnectCallback = 0 ∧
      (WIFI_InitializeEx g list hwaddr).st.wifi.m_CallbackPtr = 0) ∧
    (∀ (mode : WIFI_Mode) (ssid pass : Option String) (pfx group : String),
      (mode = .mesh_root →
        (WIFI_MeshInitialize g mode ssid pass pfx group hwaddr).st.wifi.m_WIFIMode = .mesh_root ∧
        (WIFI_MeshInitialize g mode ssid pass pfx group hwaddr).st.WIFI_state = .wifi_connect ∧
        (WIFI_MeshInitialize g mode ssid pass pfx group hwaddr).st.WIFI_Mesh_state = .mesh_none) ∧
      ((mode = .mesh_non_leaf ∨ mode = .mesh_leaf) →
        (WIFI_MeshInitialize g mode ssid pass pfx group hwaddr).st.wifi.m_WIFIMode = mode ∧
        (WIFI_MeshInitialize g mode ssid pass pfx group hwaddr).st.WIFI_state = .wifi_disabled ∧
        (WIFI_MeshInitialize g mode ssid pass pfx group hwaddr).st.WIFI_Mesh_state =
          .mesh_connect) ∧
      (WIFI_MeshInitialize g mode ssid pass pfx group hwaddr).st.wifi.m_OnConnectCallback = 0 ∧
      (WIFI_MeshInitialize g mode ssid pass pfx group hwaddr).st.wifi.m_OnDisconnectCallback = 0 ∧
      (WIFI_MeshInitialize g mode ssid pass pfx group hwaddr).st.wifi.m_CallbackPtr = 0) := by
  refine ⟨?_, ?_, ?_⟩
  · intro p1 p2
    cases p1 <;> simp [WIFI_Initialize]
  · intro list
    simp [WIFI_InitializeEx]
  · intro mode ssid pass pfx group
    cases mode <;> simp [WIFI_MeshInitialize, build_mesh_ap_ssid]

theorem initial_states_by_mode_witness :
    (WIFI_MeshInitialize (sample_globals .ap_fixed .wifi_ready .mesh_disabled) .mesh_leaf
      (some "home") none "mesh" "group" sample_hwaddr).st.WIFI_state = .wifi_disabled ∧
    (WIFI_MeshInitialize (sample_globals .ap_fixed .wifi_ready .mesh_disabled) .mesh_leaf
      (some "home") none "mesh" "group" sample_hwaddr).st.WIFI_Mesh_state = .mesh_connect :=
  have h := ((initial_states_by_mode (sample_globals .ap_fixed .wifi_ready .mesh_disabled)
    sample_hwaddr).2.2 .mesh_leaf (some "home") none "mesh" "group").2.1 (Or.inr rfl)
  ⟨h.2.1, h.2.2⟩

/-! ## One poll: the station switch within `WIFI_Run` -/

theorem WIFI_Run_station_part (g : Globals) (env : Env) :
    (WIFI_Run g env).st.WIFI_state = (WIFI_Run_station g env).1.WIFI_state ∧
    (WIFI_Run g env).st.wifi = (WIFI_Run_station g env).1.wifi ∧
    (WIFI_Run g env).st.wifi_best_ssid = (WIFI_Run_station g env).1.wifi_best_ssid ∧
    (WIFI_Run g env).st.wifi_list = (WIFI_Run_station g env).1.wifi_list ∧
    (WIFI_Run g env).trace =
      (WIFI_Run_station g env).2 ++ (WIFI_Run_mesh (WIFI_Run_station g env).1 env).2 := by
  obtain ⟨h1, h2, h3, h4, _⟩ := WIFI_Run_mesh_frame (WIFI_Run_station g env).1 env
  exact ⟨h1, h2, h3, h4, rfl⟩

theorem WIFI_Run_mesh_no_connect (g : Globals) (env : Env) :
    Effect.wifi_station_connect ∉ (WIFI_Run_mesh g env).2 := by
  obtain ⟨_, h2, h3⟩ := do_wifi_mesh_check_eq g env
  unfold WIFI_Run_mesh
  cases hm : g.WIFI_Mesh_state
  case mesh_none => by_cases hd : g.WIFI_state = .wifi_disabled <;> simp [hd]
  case mesh_connect_in_progress =>
    by_cases he : env.mesh_check_expired = true
    · rcases h3 with h3 | h3 <;> simp [he, h2, h3]
    · simp [he]
  all_goals simp [do_wifi_mesh_connect]

/-! ## C16 -/

theorem station_connect_in_progress_step (g : Globals) (env : Env)
    (hs : g.WIFI_state = .wifi_connect_in_progress)
    (ht : g.wifi.m_WIFIMode = .ap_fixed ∨ env.connect_timeout_expired = false) :
    WIFI_Run_station g env =
      if env.connect_check_expired = true then
        ({ g with WIFI_state :=
            if env.connect_status % 256 = STATION_GOT_IP then .wifi_connect_done
            else .wifi_connect_fail },
         [.countdown .connect_check_timer CONNECT_CHECK_INTERVAL_SECONDS])
      else (g, []) := by
  have hguard : ¬ (g.wifi.m_WIFIMode ≠ .ap_fixed ∧ env.connect_timeout_expired = true) := by
    rintro ⟨h1, h2⟩
    rcases ht with ht | ht
    · exact h1 ht
    · rw [ht] at h2; exact Bool.noConfusion h2
  by_cases hc : env.connect_check_expired = true
  · simp [WIFI_Run_station, hs, hguard, hc, do_wifi_check_eq]
  · simp [WIFI_Run_station, hs, hguard, hc]

/-- C16. Driver status mapping.  `do_wifi_check` returns `wifi_connect_done`
exactly when the status the driver reports (a `uint8`) is STATION_GOT_IP and
`wifi_connect_fail` for every other value, idle, wrong password, no AP found,
connect fail and still connecting included.  A poll that starts in
`wifi_connect_in_progress` with the check timer expired, in mode `ap_fixed` or
with the timeout timer not expired, ends in `wifi_connect_done` when the
status is STATION_GOT_IP and in `wifi_connect_fail` otherwise; with the check
timer not expired it stays in `wifi_connect_in_progress`. -/
theorem driver_status_mapping (g : Globals) (env : Env) :
    ((do_wifi_check g env).ret = .wifi_connect_done ↔
      env.connect_status % 256 = STATION_GOT_IP) ∧
    (env.connect_status % 256 ≠ STATION_GOT_IP →
      (do_wifi_check g env).ret = .wifi_connect_fail) ∧
    (env.connect_status < 256 →
      ((do_wifi_check g env).ret = .wifi_connect_done ↔ env.connect_status = STATION_GOT_IP) ∧
      (env.connect_status ≠ STATION_GOT_IP → (do_wifi_check g env).ret = .wifi_connect_fail)) ∧
    (g.WIFI_state = .wifi_connect_in_progress →
      (g.wifi.m_WIFIMode = .ap_fixed ∨ env.connect_timeout_expired = false) →
      (env.connect_check_expired = true →
        ((WIFI_Run g env).st.WIFI_state = .wifi_connect_done ↔
          env.connect_status % 256 = STATION_GOT_IP) ∧
        (env.connect_status % 256 ≠ STATION_GOT_IP →
          (WIFI_Run g env).st.WIFI_state = .wifi_connect_fail)) ∧
      (env.connect_check_expired = false →
        (WIFI_Run g env).st.WIFI_state = .wifi_connect_in_progress)) := by
  have hret : (do_wifi_check g env).ret =
      if env.connect_status % 256 = STATION_GOT_IP then .wifi_connect_done
      else .wifi_connect_fail := by
    rw [do_wifi_check_eq]
  refine ⟨?_, ?_, ?_, ?_⟩
  · rw [hret]; split_ifs with h <;> simp [h]
  · intro h; rw [hret, if_neg h]
  · intro hlt
    rw [hret, Nat.mod_eq_of_lt hlt]
    refine ⟨?_, fun h => by rw [if_neg h]⟩
    split_ifs with h <;> simp [h]
  · intro hs ht
    have hstep := station_connect_in_progress_step g env hs ht
    have hrun := (WIFI_Run_station_part g env).1
    refine ⟨?_, ?_⟩
    · intro hc
      rw [hrun, hstep, if_pos hc]
      refine ⟨?_, fun h => by simp [h]⟩
      by_cases h : env.connect_status % 256 = STATION_GOT_IP <;> simp [h]
    · intro hc
      rw [hrun, hstep]
      simp [hc, hs]

theorem driver_status_mapping_witness :
    (env_check STATION_WRONG_PASSWORD).connect_status < 256 ∧
    (env_check STATION_WRONG_PASSWORD).connect_status ≠ STATION_GOT_IP ∧
    (do_wifi_check (sample_globals .ap_fixed .wifi_connect_in_progress .mesh_disabled)
      (env_check STATION_WRONG_PASSWORD)).ret = .wifi_connect_fail :=
  ⟨by decide, by decide,
   ((driver_status_mapping (sample_globals .ap_fixed .wifi_connect_in_progress .mesh_disabled)
      (env_check STATION_WRONG_PASSWORD)).2.2.1 (by decide)).2 (by decide)⟩

/-! ## C17 -/

theorem station_connect_fail_step (g : Globals) (env : Env)
    (hs : g.WIFI_state = .wifi_connect_fail) :
    WIFI_Run_station g env =
      if g.wifi.m_WIFIMode ≠ .ap_fixed then ({ g with WIFI_state := .wifi_disabled }, [])
      else ({ g with WIFI_state := .wifi_connect_in_progress },
            connect_commands g.wifi.m_StationConfig ++
              [.countdown .connect_check_timer CONNECT_CHECK_INTERVAL_SECONDS]) := by
  by_cases hm : g.wifi.m_WIFIMode = .ap_fixed
  · simp [WIFI_Run_station, hs, hm, do_wifi_connect, connect_commands]
  · simp [WIFI_Run_station, hs, hm]

/-- C17. ConnectFail policy by mode.  A poll that starts in
`wifi_connect_fail` in a mode other than `ap_fixed`, `ap_fixed_auto` included,
sets the station state to `wifi_disabled` (not `wifi_scan`), its station
switch sends no command and the whole poll sends no `wifi_station_connect`.
In mode `ap_fixed` it sends the connect commands with the stored station
configuration (station mode, the configuration, connect, auto-connect on),
then arms the check timer for 15 seconds, and leaves
`wifi_connect_in_progress`; what the poll sends afterwards comes from the mesh
switch, which arms no station timer and sends no `wifi_station_connect`. -/
theorem connect_fail_policy (g : Globals) (env : Env)
    (hs : g.WIFI_state = .wifi_connect_fail) :
    (g.wifi.m_WIFIMode ≠ .ap_fixed →
      (WIFI_Run g env).st.WIFI_state = .wifi_disabled ∧
      (WIFI_Run_station g env).2 = [] ∧
      Effect.wifi_station_connect ∉ (WIFI_Run g env).trace ∧
      ¬ arms_station_timer (WIFI_Run g env).trace) ∧
    (g.wifi.m_WIFIMode = .ap_fixed →
      (WIFI_Run g env).st.WIFI_state = .wifi_connect_in_progress ∧
      ∃ rest : List Effect,
        (WIFI_Run g env).trace =
          [.wifi_set_opmode_current STATION_MODE,
           .wifi_station_set_config_current g.wifi.m_StationConfig,
           .wifi_station_connect, .wifi_station_set_auto_connect 1,
           .countdown .connect_check_timer 15] ++ rest ∧
        ¬ arms_station_timer rest ∧ Effect.wifi_station_connect ∉ rest) := by
  obtain ⟨hst, _, _, _, htr⟩ := WIFI_Run_station_part g env
  have hstep := station_connect_fail_step g env hs
  refine ⟨?_, ?_⟩
  · intro hm
    rw [if_pos hm] at hstep
    refine ⟨by rw [hst, hstep], by rw [hstep], ?_, ?_⟩
    · rw [htr, hstep]
      simpa using WIFI_Run_mesh_no_connect _ env
    · rw [htr, hstep]
      simpa using (WIFI_Run_mesh_frame _ env).2.2.2.2.1
  · intro hm
    rw [if_neg (by simp [hm])] at hstep
    refine ⟨by rw [hst, hstep], (WIFI_Run_mesh (WIFI_Run_station g env).1 env).2, ?_,
      (WIFI_Run_mesh_frame _ env).2.2.2.2.1, WIFI_Run_mesh_no_connect _ env⟩
    rw [htr]
    rw [hstep]
    simp [connect_commands, CONNECT_CHECK_INTERVAL_SECONDS]

theorem connect_fail_policy_witness :
    (sample_globals .ap_fixed_auto .wifi_connect_fail .mesh_disabled).wifi.m_WIFIMode ≠
      .ap_fixed ∧
    (WIFI_Run (sample_globals .ap_fixed_auto .wifi_connect_fail .mesh_disabled)
      env_quiet).st.WIFI_state = .wifi_disabled :=
  ⟨by decide,
   ((connect_fail_policy (sample_globals .ap_fixed_auto .wifi_connect_fail .mesh_disabled)
      env_quiet rfl).1 (by decide)).1⟩

/-! ## C18 -/

theorem station_ready_step (g : Globals) (env : Env) (hs : g.WIFI_state = .wifi_ready) :
    WIFI_Run_station g env =
      if env.connect_check_expired = true then
        (if env.connect_status % 256 = STATION_GOT_IP then g
         else if g.wifi.m_WIFIMode = .ap_fixed_auto then { g with WIFI_state := .wifi_scan }
         else { g with WIFI_state := .wifi_connect_fail },
         [.countdown .connect_check_timer CONNECT_CHECK_INTERVAL_SECONDS])
      else (g, []) := by
  by_cases hc : env.connect_check_expired = true
  · by_cases hg : env.connect_status % 256 = STATION_GOT_IP
    · simp [WIFI_Run_station, hs, hc, hg, do_wifi_check_eq]
    · by_cases hm : g.wifi.m_WIFIMode = .ap_fixed_auto <;>
        simp [WIFI_Run_station, hs, hc, hg, hm, do_wifi_check_eq]
  · simp [WIFI_Run_station, hs, hc]

/-- C18. Ready re-check.  A poll that starts in `wifi_ready` stays in
`wifi_ready` when the check timer has not expired, and also when it has
expired and the driver status is STATION_GOT_IP, in which case the check
timer is armed again; when the check timer has expired and the status is
anything else the station state becomes `wifi_scan` in mode `ap_fixed_auto`
and `wifi_connect_fail` in every other mode. -/
theorem ready_recheck (g : Globals) (env : Env) (hs : g.WIFI_state = .wifi_ready) :
    (env.connect_check_expired = false → (WIFI_Run g env).st.WIFI_state = .wifi_ready) ∧
    (env.connect_check_expired = true → env.connect_status % 256 = STATION_GOT_IP →
      (WIFI_Run g env).st.WIFI_state = .wifi_ready ∧
      Effect.countdown .connect_check_timer 15 ∈ (WIFI_Run g env).trace) ∧
    (env.connect_check_expired = true → env.connect_status % 256 ≠ STATION_GOT_IP →
      (g.wifi.m_WIFIMode = .ap_fixed_auto → (WIFI_Run g env).st.WIFI_state = .wifi_scan) ∧
      (g.wifi.m_WIFIMode ≠ .ap_fixed_auto →
        (WIFI_Run g env).st.WIFI_state = .wifi_connect_fail)) := by
  obtain ⟨hst, _, _, _, htr⟩ := WIFI_Run_station_part g env
  have hstep := station_ready_step g env hs
  refine ⟨?_, ?_, ?_⟩
  · intro hc
    rw [hst, hstep]
    simp [hc, hs]
  · intro hc hg
    rw [if_pos hc, if_pos hg] at hstep
    refine ⟨by rw [hst, hstep]; exact hs, ?_⟩
    rw [htr, hstep]
    simp [CONNECT_CHECK_INTERVAL_SECONDS]
  · intro hc hg
    rw [if_pos hc, if_neg hg] at hstep
    refine ⟨?_, ?_⟩
    · intro hm
      rw [if_pos hm] at hstep
      rw [hst, hstep]
    · intro hm
      rw [if_neg hm] at hstep
      rw [hst, hstep]

theorem ready_recheck_witness :
    (env_check STATION_NO_AP_FOUND).connect_status % 256 ≠ STATION_GOT_IP ∧
    (WIFI_Run (sample_globals .ap_fixed_auto .wifi_ready .mesh_disabled)
      (env_check STATION_NO_AP_FOUND)).st.WIFI_state = .wifi_scan ∧
    (WIFI_Run (sample_globals .mesh_root .wifi_ready .mesh_none)
      (env_check STATION_NO_AP_FOUND)).st.WIFI_state = .wifi_connect_fail :=
  ⟨by decide,
   ((ready_recheck (sample_globals .ap_fixed_auto .wifi_ready .mesh_disabled)
      (env_check STATION_NO_AP_FOUND) rfl).2.2 rfl (by decide)).1 rfl,
   ((ready_recheck (sample_globals .mesh_root .wifi_ready .mesh_none)
      (env_check STATION_NO_AP_FOUND) rfl).2.2 rfl (by decide)).2 (by decide)⟩

/-! ## C19 -/

theorem station_scan_done_step (g : Globals) (env : Env) (hs : g.WIFI_state = .wifi_scan_done) :
    WIFI_Run_station g env =
      match g.wifi_best_ssid with
      | some best =>
        ({ g with wifi := { g.wifi with m_StationConfig :=
                    { ssid := best.ssid, password := best.psw.getD "" } },
                  WIFI_state := .wifi_connect }, [])
      | none => ({ g with WIFI_state := .wifi_scan }, []) := by
  cases hb : g.wifi_best_ssid with
  | none => simp [WIFI_Run_station, hs, do_wifi_scan_done, hb]
  | some best =>
    cases hp : best.psw <;> simp [WIFI_Run_station, hs, do_wifi_scan_done, hb, hp, os_strcpy]

/-- C19. ScanDone commits the winner.  A poll that starts in `wifi_scan_done`
while a scan winner is held copies the winner's ssid and password into the
station configuration, the password being empty when the winner has none,
and moves the station state to `wifi_connect`; while no winner is held it
moves the station state to `wifi_scan` and leaves the station configuration
as it was; in both cases the registry and the scan winner are as before. -/
theorem scan_done_commits_winner (g : Globals) (env : Env)
    (hs : g.WIFI_state = .wifi_scan_done) :
    (∀ best : WIFI_AP, g.wifi_best_ssid = some best →
      (WIFI_Run g env).st.wifi.m_StationConfig.ssid = best.ssid ∧
      (∀ psw : String, best.psw = some psw →
        (WIFI_Run g env).st.wifi.m_StationConfig.password = psw) ∧
      (best.psw = none → (WIFI_Run g env).st.wifi.m_StationConfig.password = "") ∧
      (WIFI_Run g env).st.WIFI_state = .wifi_connect) ∧
    (g.wifi_best_ssid = none →
      (WIFI_Run g env).st.WIFI_state = .wifi_scan ∧
      (WIFI_Run g env).st.wifi.m_StationConfig = g.wifi.m_StationConfig) ∧
    (WIFI_Run g env).st.wifi_list = g.wifi_list ∧
    (WIFI_Run g env).st.wifi_best_ssid = g.wifi_best_ssid := by
  obtain ⟨hst, hw, hb, hl, _⟩ := WIFI_Run_station_part g env
  have hstep := station_scan_done_step g env hs
  cases hbest : g.wifi_best_ssid with
  | none =>
    rw [hbest] at hstep
    simp only at hstep
    refine ⟨fun best h => by simp at h, fun _ => ⟨by rw [hst, hstep], by rw [hw, hstep]⟩,
      by rw [hl, hstep], by rw [hb, hstep]⟩
  | some w =>
    rw [hbest] at hstep
    simp only at hstep
    refine ⟨?_, fun h => by simp at h, by rw [hl, hstep], by rw [hb, hstep]⟩
    intro best hbw
    have hbw' : w = best := by simpa using hbw
    subst hbw'
    refine ⟨by rw [hw, hstep], ?_, ?_, by rw [hst, hstep]⟩
    · intro psw hp
      rw [hw, hstep]
      simp [hp]
    · intro hp
      rw [hw, hstep]
      simp [hp]

theorem scan_done_commits_winner_witness :
    (scan_done_callback (sample_globals .ap_fixed_auto .wifi_scan_in_progress .mesh_disabled)
      [net_office] .OK).WIFI_state = .wifi_scan_done ∧
    (WIFI_Run (scan_done_callback
      (sample_globals .ap_fixed_auto .wifi_scan_in_progress .mesh_disabled) [net_office] .OK)
      env_quiet).st.wifi.m_StationConfig = { ssid := "office", password := "" } :=
  have hs : (scan_done_callback
      (sample_globals .ap_fixed_auto .wifi_scan_in_progress .mesh_disabled)
      [net_office] .OK).WIFI_state = .wifi_scan_done := by decide
  have h := (scan_done_commits_winner (scan_done_callback
      (sample_globals .ap_fixed_auto .wifi_scan_in_progress .mesh_disabled) [net_office] .OK)
      env_quiet hs).1 { ssid := "office", psw := none } (by decide)
  ⟨hs, by
    have h1 := h.1
    have h2 := h.2.2.1 rfl
    revert h1 h2
    generalize (WIFI_Run (scan_done_callback
      (sample_globals .ap_fixed_auto .wifi_scan_in_progress .mesh_disabled) [net_office] .OK)
      env_quiet).st.wifi.m_StationConfig = c
    intro h1 h2
    cases c
    simp_all⟩

/-! ## C20 -/

/-- C20, as stated, fails.  A poll that starts in `wifi_scan` while the driver
refuses the scan trigger leaves `wifi_scan_in_progress`, not `wifi_scan_fail`;
a later poll with every timer expired leaves `wifi_scan_in_progress` again and
sends nothing, so the scan is not issued again. -/
theorem refused_scan_trigger_is_not_retried :
    env_scan_refused.scan_accepted = false ∧
    (WIFI_Run (sample_globals .ap_fixed_auto .wifi_scan .mesh_disabled)
      env_scan_refused).st.WIFI_state = .wifi_scan_in_progress ∧
    (WIFI_Run (WIFI_Run (sample_globals .ap_fixed_auto .wifi_scan .mesh_disabled)
      env_scan_refused).st (env_all_expired STATION_IDLE)).st.WIFI_state =
        .wifi_scan_in_progress ∧
    (WIFI_Run (WIFI_Run (sample_globals .ap_fixed_auto .wifi_scan .mesh_disabled)
      env_scan_refused).st (env_all_expired STATION_IDLE)).trace = [] := by
  decide

theorem scan_in_progress_step (g : Globals) (env : Env)
    (hs : g.WIFI_state = .wifi_scan_in_progress) : WIFI_Run_station g env = (g, []) := by
  simp [WIFI_Run_station, hs]

theorem scan_in_progress_run_polls (envs : List Env) :
    ∀ g : Globals, g.WIFI_state = .wifi_scan_in_progress →
      (run_polls g envs).WIFI_state = .wifi_scan_in_progress := by
  induction envs with
  | nil => intro g h; simpa [run_polls] using h
  | cons env rest ih =>
    intro g h
    simp only [run_polls]
    apply ih
    rw [(WIFI_Run_station_part g env).1, scan_in_progress_step g env h]
    exact h

/-- C20, amended.  A poll that starts in `wifi_scan` sends the scan trigger and
leaves `wifi_scan_in_progress` whatever the trigger reports.  After any
further polls the station state is still `wifi_scan_in_progress`, and the
station switch of each of those polls sends nothing, whatever the timers
report: the poll itself does not issue the scan again.  The retry on the
check timer belongs to `wifi_scan_fail`: a poll that starts there with the
check timer expired sends the scan trigger and leaves
`wifi_scan_in_progress`, and one with the check timer not expired stays in
`wifi_scan_fail`. -/
theorem scan_trigger_result_ignored (g : Globals) (env : Env) :
    (g.WIFI_state = .wifi_scan →
      (WIFI_Run g env).st.WIFI_state = .wifi_scan_in_progress ∧
      (WIFI_Run_station g env).2 = [.wifi_set_opmode STATION_MODE, .wifi_station_scan] ∧
      ∀ (later : List Env) (env' : Env),
        (run_polls (WIFI_Run g env).st later).WIFI_state = .wifi_scan_in_progress ∧
        (WIFI_Run_station (run_polls (WIFI_Run g env).st later) env').2 = []) ∧
    (g.WIFI_state = .wifi_scan_fail →
      (env.connect_check_expired = true →
        (WIFI_Run g env).st.WIFI_state = .wifi_scan_in_progress ∧
        (WIFI_Run_station g env).2 =
          [.wifi_set_opmode STATION_MODE, .wifi_station_scan,
           .countdown .connect_check_timer 15]) ∧
      (env.connect_check_expired = false →
        (WIFI_Run g env).st.WIFI_state = .wifi_scan_fail ∧ (WIFI_Run_station g env).2 = [])) := by
  have hst := (WIFI_Run_station_part g env).1
  refine ⟨?_, ?_⟩
  · intro hs
    have hstep : WIFI_Run_station g env =
        ({ g with WIFI_state := .wifi_scan_in_progress },
         [.wifi_set_opmode STATION_MODE, .wifi_station_scan]) := by
      simp [WIFI_Run_station, hs, do_wifi_scan]
    have hfirst : (WIFI_Run g env).st.WIFI_state = .wifi_scan_in_progress := by
      rw [hst, hstep]
    refine ⟨hfirst, by rw [hstep], ?_⟩
    intro later env'
    have hl := scan_in_progress_run_polls later _ hfirst
    exact ⟨hl, by rw [scan_in_progress_step _ env' hl]⟩
  · intro hs
    refine ⟨?_, ?_⟩
    · intro hc
      have hstep : WIFI_Run_station g env =
          ({ g with WIFI_state := .wifi_scan_in_progress },
           [.wifi_set_opmode STATION_MODE, .wifi_station_scan,
            .countdown .connect_check_timer 15]) := by
        simp [WIFI_Run_station, hs, hc, do_wifi_scan, CONNECT_CHECK_INTERVAL_SECONDS]
      exact ⟨by rw [hst, hstep], by rw [hstep]⟩
    · intro hc
      have hstep : WIFI_Run_station g env = (g, []) := by
        simp [WIFI_Run_station, hs, hc]
      exact ⟨by rw [hst, hstep]; exact hs, by rw [hstep]⟩

theorem scan_trigger_result_ignored_witness :
    env_scan_refused.scan_accepted = false ∧
    (run_polls (WIFI_Run (sample_globals .ap_fixed_auto .wifi_scan .mesh_disabled)
      env_scan_refused).st [env_all_expired STATION_IDLE, env_quiet]).WIFI_state =
        .wifi_scan_in_progress :=
  ⟨rfl,
   (((scan_trigger_result_ignored (sample_globals .ap_fixed_auto .wifi_scan .mesh_disabled)
      env_scan_refused).1 rfl).2.2 [env_all_expired STATION_IDLE, env_quiet] env_quiet).1⟩

/-! ## C21 -/

theorem on_disconnect_calls_append (a b : List Effect) :
    on_disconnect_calls (a ++ b) = on_disconnect_calls a ++ on_disconnect_calls b := by
  simp [on_disconnect_calls]

theorem on_disconnect_calls_mesh (g : Globals) (env : Env) :
    on_disconnect_calls (WIFI_Run_mesh g env).2 = [] := by
  have h := (WIFI_Run_mesh_frame g env).2.2.2.2.2.2
  unfold on_disconnect_calls
  rw [List.filter_eq_nil_iff]
  intro e he
  cases e <;> simp
  case OnDisconnectCallback fn a ptr => exact h fn a ptr he

theorem on_disconnect_calls_run (g : Globals) (env : Env) :
    on_disconnect_calls (WIFI_Run g env).trace =
      on_disconnect_calls (WIFI_Run_station g env).2 := by
  simp only [WIFI_Run, on_disconnect_calls_append, on_disconnect_calls_mesh, List.append_nil]

theorem station_disconnect_step (g : Globals) (env : Env) (hs : g.WIFI_state = .wifi_disconnect) :
    (WIFI_Run_station g env).1.WIFI_state = .wifi_disconnect_in_progress ∧
    on_connect_calls (WIFI_Run_station g env).2 = [] ∧
    on_disconnect_calls (WIFI_Run_station g env).2 = [] := by
  cases hm : g.wifi.m_WIFIMode <;>
    simp [WIFI_Run_station, hs, do_wifi_disconnect, hm, build_mesh_ap_ssid, on_connect_calls,
      on_disconnect_calls]

theorem station_disconnect_done_step (g : Globals) (env : Env)
    (hs : g.WIFI_state = .wifi_disconnect_done) :
    WIFI_Run_station g env =
      ({ g with WIFI_state := .wifi_disabled },
       if g.wifi.m_OnDisconnectCallback ≠ 0 then
         [.OnDisconnectCallback g.wifi.m_OnDisconnectCallback 1 g.wifi.m_CallbackPtr]
       else []) := by
  by_cases hcb : g.wifi.m_OnDisconnectCallback = 0 <;>
    simp [WIFI_Run_station, hs, do_wifi_disconnect_done, hcb]

theorem on_disconnect_calls_station_other (g : Globals) (env : Env)
    (hs : g.WIFI_state ≠ .wifi_disconnect_done) :
    on_disconnect_calls (WIFI_Run_station g env).2 = [] := by
  unfold WIFI_Run_station
  cases hst : g.WIFI_state
  case wifi_disconnect_done => exact absurd hst hs
  case wifi_connect =>
    cases hm : g.wifi.m_WIFIMode <;> simp [do_wifi_connect, hm, on_disconnect_calls]
  case wifi_connect_fail =>
    cases hm : g.wifi.m_WIFIMode <;> simp [do_wifi_connect, hm, on_disconnect_calls]
  case wifi_connect_in_progress =>
    simp only [do_wifi_check_eq]
    split_ifs <;> simp [on_disconnect_calls]
  case wifi_ready =>
    simp only [do_wifi_check_eq]
    split_ifs <;> simp [on_disconnect_calls]
  case wifi_disconnect =>
    cases hm : g.wifi.m_WIFIMode <;>
      simp [do_wifi_disconnect, hm, on_disconnect_calls, build_mesh_ap_ssid]
  case wifi_connect_done =>
    cases hm : g.wifi.m_WIFIMode <;>
      by_cases hcb : g.wifi.m_OnConnectCallback = 0 <;>
      simp [do_wifi_connect_done, hm, hcb, on_disconnect_calls, build_mesh_ap_ssid]
  case wifi_scan_fail =>
    split_ifs <;> simp [on_disconnect_calls, do_wifi_scan]
  case wifi_scan_done =>
    cases hb : g.wifi_best_ssid <;> simp [do_wifi_scan_done, hb, on_disconnect_calls]
  all_goals simp [on_disconnect_calls, do_wifi_scan]

/-- C21. Disconnect sequence steps.  A poll that starts in `wifi_disconnect`
leaves `wifi_disconnect_in_progress` in every mode and invokes neither
callback.  A poll that starts in `wifi_disconnect_done` leaves
`wifi_disabled` and, when an on-disconnect callback is registered, invokes it
exactly once, with the arguments 1 and the registered context pointer.  A
poll that starts in any other station state never invokes on-disconnect. -/
theorem disconnect_sequence_steps (g : Globals) (env : Env) :
    (g.WIFI_state = .wifi_disconnect →
      (WIFI_Run g env).st.WIFI_state = .wifi_disconnect_in_progress ∧
      on_connect_calls (WIFI_Run g env).trace = [] ∧
      on_disconnect_calls (WIFI_Run g env).trace = []) ∧
    (g.WIFI_state = .wifi_disconnect_done →
      (WIFI_Run g env).st.WIFI_state = .wifi_disabled ∧
      (g.wifi.m_OnDisconnectCallback ≠ 0 →
        on_disconnect_calls (WIFI_Run g env).trace =
          [.OnDisconnectCallback g.wifi.m_OnDisconnectCallback 1 g.wifi.m_CallbackPtr])) ∧
    (g.WIFI_state ≠ .wifi_disconnect_done →
      on_disconnect_calls (WIFI_Run g env).trace = []) := by
  have hst := (WIFI_Run_station_part g env).1
  refine ⟨?_, ?_, ?_⟩
  · intro hs
    obtain ⟨h1, h2, h3⟩ := station_disconnect_step g env hs
    exact ⟨by rw [hst, h1], by rw [on_connect_calls_run, h2],
      by rw [on_disconnect_calls_run, h3]⟩
  · intro hs
    have hstep := station_disconnect_done_step g env hs
    refine ⟨by rw [hst, hstep], ?_⟩
    intro hcb
    rw [on_disconnect_calls_run, hstep]
    simp [hcb, on_disconnect_calls]
  · intro hs
    rw [on_disconnect_calls_run, on_disconnect_calls_station_other g env hs]

theorem disconnect_sequence_steps_witness :
    (WIFI_SetCallback (sample_globals .ap_fixed .wifi_disconnect_done .mesh_disabled)
      4096 8192 77).st.wifi.m_OnDisconnectCallback ≠ 0 ∧
    on_disconnect_calls (WIFI_Run (WIFI_SetCallback
      (sample_globals .ap_fixed .wifi_disconnect_done .mesh_disabled) 4096 8192 77).st
      env_quiet).trace = [.OnDisconnectCallback 8192 1 77] ∧
    (WIFI_Run (WIFI_disconnect (sample_globals .mesh_root .wifi_ready .mesh_none)).st
      env_quiet).st.WIFI_state = .wifi_disconnect_in_progress :=
  ⟨by decide,
   ((disconnect_sequence_steps (WIFI_SetCallback
      (sample_globals .ap_fixed .wifi_disconnect_done .mesh_disabled) 4096 8192 77).st
      env_quiet).2.1 rfl).2 (by decide),
   ((disconnect_sequence_steps (WIFI_disconnect
      (sample_globals .mesh_root .wifi_ready .mesh_none)).st env_quiet).1 rfl).1⟩

/-! ## C22 -/

theorem WIFI_Run_mesh_identity (g : Globals) (env : Env) :
    (WIFI_Run_mesh g env).1.mesh_status = g.mesh_status ∧
    (WIFI_Run_mesh g env).1.wifi_mesh = g.wifi_mesh ∧
    Globals.mesh_prefix (WIFI_Run_mesh g env).1 = Globals.mesh_prefix g ∧
    Globals.mesh_postfix (WIFI_Run_mesh g env).1 = Globals.mesh_postfix g := by
  obtain ⟨_, h2, _⟩ := do_wifi_mesh_check_eq g env
  unfold WIFI_Run_mesh
  cases hm : g.WIFI_Mesh_state
  case mesh_none => by_cases hd : g.WIFI_state = .wifi_disabled <;> simp [hd]
  case mesh_connect_in_progress =>
    by_cases he : env.mesh_check_expired = true
    · simp [he, h2]
    · simp [he]
  all_goals simp [do_wifi_mesh_connect]

theorem mesh_ssid_with_status (pfx post : String) (status : Char) (h : status ≠ '\x00') :
    os_strcat (os_strcat (os_strcat (os_strcat (os_strcpy "" pfx) "_")
      (c_str [status, '\x00'])) "_") post =
      pfx ++ ("_" ++ String.singleton status ++ "_") ++ post := by
  simp [os_strcat, os_strcpy, c_str_status status h, String.append_assoc]

theorem station_connect_done_identity (g : Globals) (env : Env)
    (hs : g.WIFI_state = .wifi_connect_done) :
    (g.wifi.m_WIFIMode = .mesh_root →
      (WIFI_Run_station g env).1.mesh_status = MESH_STATUS_CONNECTED ∧
      (WIFI_Run_station g env).1.wifi_mesh.m_ApConfig.ssid =
        Globals.mesh_prefix g ++ "_1_" ++ Globals.mesh_postfix g) ∧
    (g.wifi.m_WIFIMode ≠ .mesh_root →
      (WIFI_Run_station g env).1.mesh_status = g.mesh_status ∧
      (WIFI_Run_station g env).1.wifi_mesh = g.wifi_mesh) := by
  have hssid := mesh_ssid_with_status (Globals.mesh_prefix g) (Globals.mesh_postfix g)
    MESH_STATUS_CONNECTED (by decide)
  have h1 : ("_" ++ String.singleton MESH_STATUS_CONNECTED ++ "_" : String) = "_1_" := by decide
  rw [h1] at hssid
  cases hm : g.wifi.m_WIFIMode <;>
    simp [WIFI_Run_station, hs, do_wifi_connect_done, hm, build_mesh_ap_ssid]
  simpa [os_strcpy] using hssid

theorem station_disconnect_identity (g : Globals) (env : Env)
    (hs : g.WIFI_state = .wifi_disconnect) :
    (g.wifi.m_WIFIMode = .mesh_root →
      (WIFI_Run_station g env).1.mesh_status = MESH_STATUS_NONE ∧
      (WIFI_Run_station g env).1.wifi_mesh.m_ApConfig.ssid =
        Globals.mesh_prefix g ++ "_0_" ++ Globals.mesh_postfix g) ∧
    (g.wifi.m_WIFIMode ≠ .mesh_root →
      (WIFI_Run_station g env).1.mesh_status = g.mesh_status ∧
      (WIFI_Run_station g env).1.wifi_mesh = g.wifi_mesh) := by
  have hssid := mesh_ssid_with_status (Globals.mesh_prefix g) (Globals.mesh_postfix g)
    MESH_STATUS_NONE (by decide)
  have h1 : ("_" ++ String.singleton MESH_STATUS_NONE ++ "_" : String) = "_0_" := by decide
  rw [h1] at hssid
  cases hm : g.wifi.m_WIFIMode <;>
    simp [WIFI_Run_station, hs, do_wifi_disconnect, hm, build_mesh_ap_ssid]
  simpa [os_strcpy] using hssid

/-- C22. Mesh root identity tracks station connectivity.  In mode `mesh_root`
the poll that starts in `wifi_connect_done` leaves the mesh status '1' and the
broadcast SSID the prefix followed by "_1_" and the postfix, and the poll that
starts in `wifi_disconnect` leaves the mesh status '0' and the broadcast SSID
the prefix followed by "_0_" and the postfix.  In every other mode these two
polls leave the mesh status and the access-point configuration, the broadcast
SSID included, as they were. -/
theorem mesh_root_identity_tracks_station (g : Globals) (env : Env) :
    (g.wifi.m_WIFIMode = .mesh_root →
      (g.WIFI_state = .wifi_connect_done →
        (WIFI_Run g env).st.mesh_status = MESH_STATUS_CONNECTED ∧
        (WIFI_Run g env).st.mesh_status = '1' ∧
        (WIFI_Run g env).st.wifi_mesh.m_ApConfig.ssid =
          Globals.mesh_prefix g ++ "_1_" ++ Globals.mesh_postfix g) ∧
      (g.WIFI_state = .wifi_disconnect →
        (WIFI_Run g env).st.mesh_status = MESH_STATUS_NONE ∧
        (WIFI_Run g env).st.mesh_status = '0' ∧
        (WIFI_Run g env).st.wifi_mesh.m_ApConfig.ssid =
          Globals.mesh_prefix g ++ "_0_" ++ Globals.mesh_postfix g)) ∧
    (g.wifi.m_WIFIMode ≠ .mesh_root →
      (g.WIFI_state = .wifi_connect_done ∨ g.WIFI_state = .wifi_disconnect) →
      (WIFI_Run g env).st.mesh_status = g.mesh_status ∧
      (WIFI_Run g env).st.wifi_mesh = g.wifi_mesh ∧
      (WIFI_Run g env).st.wifi_mesh.m_ApConfig.ssid = g.wifi_mesh.m_ApConfig.ssid) := by
  obtain ⟨m1, m2, _, _⟩ := WIFI_Run_mesh_identity (WIFI_Run_station g env).1 env
  have hstat : (WIFI_Run g env).st.mesh_status = (WIFI_Run_station g env).1.mesh_status := m1
  have hmesh : (WIFI_Run g env).st.wifi_mesh = (WIFI_Run_station g env).1.wifi_mesh := m2
  refine ⟨?_, ?_⟩
  · intro hm
    refine ⟨?_, ?_⟩
    · intro hs
      obtain ⟨h1, h2⟩ := (station_connect_done_identity g env hs).1 hm
      exact ⟨by rw [hstat, h1], by rw [hstat, h1]; rfl, by rw [hmesh, h2]⟩
    · intro hs
      obtain ⟨h1, h2⟩ := (station_disconnect_identity g env hs).1 hm
      exact ⟨by rw [hstat, h1], by rw [hstat, h1]; rfl, by rw [hmesh, h2]⟩
  · intro hm hs
    rcases hs with hs | hs
    · obtain ⟨h1, h2⟩ := (station_connect_done_identity g env hs).2 hm
      exact ⟨by rw [hstat, h1], by rw [hmesh, h2], by rw [hmesh, h2]⟩
    · obtain ⟨h1, h2⟩ := (station_disconnect_identity g env hs).2 hm
      exact ⟨by rw [hstat, h1], by rw [hmesh, h2], by rw [hmesh, h2]⟩

theorem mesh_root_identity_tracks_station_witness :
    (run_polls mesh_root_initial [env_quiet, env_check STATION_GOT_IP]).wifi.m_WIFIMode =
      .mesh_root ∧
    (run_polls mesh_root_initial [env_quiet, env_check STATION_GOT_IP]).WIFI_state =
      .wifi_connect_done ∧
    (WIFI_Run (run_polls mesh_root_initial [env_quiet, env_check STATION_GOT_IP])
      env_quiet).st.wifi_mesh.m_ApConfig.ssid = "mesh_1_AABBCCDDEEFF" :=
  have hm : (run_polls mesh_root_initial [env_quiet, env_check STATION_GOT_IP]).wifi.m_WIFIMode =
      .mesh_root := by decide
  have hs : (run_polls mesh_root_initial [env_quiet, env_check STATION_GOT_IP]).WIFI_state =
      .wifi_connect_done := by decide
  ⟨hm, hs,
   (((mesh_root_identity_tracks_station
      (run_polls mesh_root_initial [env_quiet, env_check STATION_GOT_IP]) env_quiet).1 hm).1
      hs).2.2.trans (by decide)⟩

/-! ## C23 -/

theorem WIFI_Run_station_mesh_state (g : Globals) (env : Env) :
    (WIFI_Run_station g env).1.WIFI_Mesh_state = g.WIFI_Mesh_state := by
  unfold WIFI_Run_station
  cases hst : g.WIFI_state
  case wifi_connect =>
    cases hm : g.wifi.m_WIFIMode <;> simp [do_wifi_connect, hm]
  case wifi_connect_fail =>
    cases hm : g.wifi.m_WIFIMode <;> simp [do_wifi_connect, hm]
  case wifi_connect_in_progress =>
    simp only [do_wifi_check_eq]
    split_ifs <;> simp
  case wifi_ready =>
    simp only [do_wifi_check_eq]
    split_ifs <;> simp
  case wifi_disconnect =>
    cases hm : g.wifi.m_WIFIMode <;> simp [do_wifi_disconnect, hm, build_mesh_ap_ssid]
  case wifi_connect_done =>
    cases hm : g.wifi.m_WIFIMode <;> simp [do_wifi_connect_done, hm, build_mesh_ap_ssid]
  case wifi_disconnect_done => simp [do_wifi_disconnect_done]
  case wifi_scan_fail =>
    split_ifs <;> simp [do_wifi_scan]
  case wifi_scan_done =>
    cases hb : g.wifi_best_ssid <;> simp [do_wifi_scan_done, hb]
  all_goals simp [do_wifi_scan]

theorem mesh_idle_step (g : Globals) (env : Env) (hm : g.WIFI_Mesh_state = .mesh_none) :
    (WIFI_Run g env).st.WIFI_Mesh_state =
      if (WIFI_Run_station g env).1.WIFI_state = .wifi_disabled then .mesh_connect
      else .mesh_none := by
  have h := WIFI_Run_station_mesh_state g env
  rw [hm] at h
  by_cases hd : (WIFI_Run_station g env).1.WIFI_state = .wifi_disabled <;>
    simp [WIFI_Run, WIFI_Run_mesh, h, hd]

theorem mesh_idle_event (g : Globals) (e : Event) (hm : g.WIFI_Mesh_state = .mesh_none)
    (he : is_scan_done e = false) (hs : (step g e).WIFI_state ≠ .wifi_disabled) :
    (step g e).WIFI_Mesh_state = .mesh_none := by
  cases e with
  | poll env =>
    simp only [step] at hs ⊢
    rw [(WIFI_Run_station_part g env).1] at hs
    rw [mesh_idle_step g env hm, if_neg hs]
  | scan_done arg status => simp [is_scan_done] at he
  | connect => simpa [step, WIFI_connect] using hm
  | disconnect => simpa [step, WIFI_disconnect] using hm
  | set_callback a b c => simpa [step, WIFI_SetCallback] using hm

theorem mesh_idle_events (events : List Event) :
    ∀ g : Globals, g.WIFI_Mesh_state = .mesh_none →
      (∀ e ∈ events, is_scan_done e = false) →
      (∀ pre post : List Event, events = pre ++ post → pre ≠ [] →
        (run_events g pre).WIFI_state ≠ .wifi_disabled) →
      (run_events g events).WIFI_Mesh_state = .mesh_none := by
  induction events with
  | nil => intro g hm _ _; simpa [run_events] using hm
  | cons e rest ih =>
    intro g hm hns hst
    simp only [run_events]
    have h1 : (step g e).WIFI_state ≠ .wifi_disabled := by
      have := hst [e] rest rfl (by simp)
      simpa [run_events] using this
    apply ih (step g e) (mesh_idle_event g e hm (hns e (List.mem_cons_self _ _)) h1)
      (fun x hx => hns x (List.mem_cons_of_mem _ hx))
    intro pre post heq hne
    have := hst (e :: pre) post (by rw [heq]; rfl) (by simp)
    simpa [run_events] using this

/-- C23. Mesh activation is gated on the station giving up.  A poll that
starts with the mesh machine idle leaves the mesh state `mesh_connect`
exactly when the station state left by that poll's own station switch, which
is the station state at the end of the poll, is `wifi_disabled`, and leaves
it idle otherwise; so in a mode other than `ap_fixed` a connect timeout
disables the station and activates the mesh machine in one poll.  Under polls
and owner calls, scan notifications excluded, the mesh machine stays idle as
long as the station state is not `wifi_disabled` after each of them. -/
theorem mesh_activation_is_gated (g : Globals) (env : Env)
    (hm : g.WIFI_Mesh_state = .mesh_none) :
    ((WIFI_Run g env).st.WIFI_Mesh_state = .mesh_connect ↔
      (WIFI_Run_station g env).1.WIFI_state = .wifi_disabled) ∧
    ((WIFI_Run_station g env).1.WIFI_state ≠ .wifi_disabled →
      (WIFI_Run g env).st.WIFI_Mesh_state = .mesh_none) ∧
    (WIFI_Run g env).st.WIFI_state = (WIFI_Run_station g env).1.WIFI_state ∧
    (g.wifi.m_WIFIMode ≠ .ap_fixed → g.WIFI_state = .wifi_connect_in_progress →
      env.connect_timeout_expired = true →
      (WIFI_Run g env).st.WIFI_state = .wifi_disabled ∧
      (WIFI_Run g env).st.WIFI_Mesh_state = .mesh_connect) ∧
    (∀ e : Event, is_scan_done e = false → (step g e).WIFI_state ≠ .wifi_disabled →
      (step g e).WIFI_Mesh_state = .mesh_none) ∧
    (∀ events : List Event, (∀ e ∈ events, is_scan_done e = false) →
      (∀ pre post : List Event, events = pre ++ post → pre ≠ [] →
        (run_events g pre).WIFI_state ≠ .wifi_disabled) →
      (run_events g events).WIFI_Mesh_state = .mesh_none) := by
  have hstep := mesh_idle_step g env hm
  have hst := (WIFI_Run_station_part g env).1
  refine ⟨?_, ?_, hst, ?_, fun e he hs => mesh_idle_event g e hm he hs,
    fun events h1 h2 => mesh_idle_events events g hm h1 h2⟩
  · rw [hstep]
    by_cases hd : (WIFI_Run_station g env).1.WIFI_state = .wifi_disabled <;> simp [hd]
  · intro hd
    rw [hstep, if_neg hd]
  · intro hmode hs ht
    have hstation : (WIFI_Run_station g env).1.WIFI_state = .wifi_disabled := by
      simp [WIFI_Run_station, hs, hmode, ht]
    exact ⟨by rw [hst, hstation], by rw [hstep, if_pos hstation]⟩

theorem mesh_activation_is_gated_witness :
    (run_polls mesh_root_initial [env_quiet]).WIFI_Mesh_state = .mesh_none ∧
    (run_polls mesh_root_initial [env_quiet]).WIFI_state = .wifi_connect_in_progress ∧
    (WIFI_Run (run_polls mesh_root_initial [env_quiet])
      (env_all_expired STATION_GOT_IP)).st.WIFI_Mesh_state = .mesh_connect ∧
    (WIFI_Run (run_polls mesh_root_initial [env_quiet])
      (env_check STATION_GOT_IP)).st.WIFI_Mesh_state = .mesh_none :=
  have hm : (run_polls mesh_root_initial [env_quiet]).WIFI_Mesh_state = .mesh_none := by decide
  have hs : (run_polls mesh_root_initial [env_quiet]).WIFI_state =
      .wifi_connect_in_progress := by decide
  ⟨hm, hs,
   ((mesh_activation_is_gated (run_polls mesh_root_initial [env_quiet])
      (env_all_expired STATION_GOT_IP) hm).2.2.2.1 (by decide) hs rfl).2,
   (mesh_activation_is_gated (run_polls mesh_root_initial [env_quiet])
      (env_check STATION_GOT_IP) hm).2.1 (by decide)⟩

/-! ## C24 -/

theorem wifi_find_ssid_loop_eq_find (ssid : String) (l : List WIFI_AP) :
    wifi_find_ssid_loop ssid l = first_exact_match l ssid := by
  induction l with
  | nil => rfl
  | cons q rest ih =>
    unfold wifi_find_ssid_loop first_exact_match
    by_cases hq : q.ssid = ssid
    · rw [if_pos ((os_strcmp_eq_zero _ _).2 hq)]
      simp [hq]
    · have h0 : ¬ os_strcmp q.ssid ssid = 0 := fun h => hq ((os_strcmp_eq_zero _ _).1 h)
      rw [if_neg h0, ih]
      simp [first_exact_match, hq]

theorem wifi_find_ssid_loop_first (ssid : String) (l : List WIFI_AP) :
    ∀ p : WIFI_AP, wifi_find_ssid_loop ssid l = some p →
      ∃ i : Nat, l[i]? = some p ∧ p.ssid = ssid ∧
        ∀ j < i, ∀ q : WIFI_AP, l[j]? = some q → q.ssid ≠ ssid := by
  induction l with
  | nil => intro p h; simp [wifi_find_ssid_loop] at h
  | cons q rest ih =>
    intro p h
    unfold wifi_find_ssid_loop at h
    by_cases hq : os_strcmp q.ssid ssid = 0
    · rw [if_pos hq] at h
      have hp : q = p := by simpa using h
      subst hp
      exact ⟨0, by simp, (os_strcmp_eq_zero _ _).1 hq, fun j hj => absurd hj (Nat.not_lt_zero j)⟩
    · rw [if_neg hq] at h
      obtain ⟨i, hi, hp, hmin⟩ := ih p h
      refine ⟨i + 1, by simpa using hi, hp, ?_⟩
      intro j hj x hx
      cases j with
      | zero =>
        have hx' : q = x := by simpa using hx
        subst hx'
        exact fun heq => hq ((os_strcmp_eq_zero _ _).2 heq)
      | succ j' =>
        exact hmin j' (by omega) x (by simpa using hx)

theorem wifi_find_ssid_index_spec (ssid : String) (cells : List WIFI_AP_raw) :
    ∀ i : Nat, wifi_find_ssid_index ssid cells = some i ↔
      (∃ c : WIFI_AP_raw, cells[i]? = some c ∧ c.ssid = some ssid) ∧
      ∀ j < i, ∃ (c : WIFI_AP_raw) (s : String),
        cells[j]? = some c ∧ c.ssid = some s ∧ s ≠ ssid := by
  induction cells with
  | nil => intro i; simp [wifi_find_ssid_index]
  | cons c rest ih =>
    intro i
    unfold wifi_find_ssid_index
    cases hc : c.ssid with
    | none =>
      simp only
      constructor
      · intro h; simp at h
      · rintro ⟨⟨x, hx, hxs⟩, hmin⟩
        cases i with
        | zero =>
          have : c = x := by simpa using hx
          subst this
          rw [hc] at hxs
          simp at hxs
        | succ i' =>
          obtain ⟨y, s, hy, hys, _⟩ := hmin 0 (by omega)
          have : c = y := by simpa using hy
          subst this
          rw [hc] at hys
          simp at hys
    | some s =>
      simp only
      by_cases hs : os_strcmp s ssid = 0
      · have hs' : s = ssid := (os_strcmp_eq_zero _ _).1 hs
        rw [if_pos hs]
        constructor
        · intro h
          have hi : i = 0 := by simpa using h.symm
          subst hi
          exact ⟨⟨c, by simp, by rw [hc, hs']⟩, fun j hj => absurd hj (Nat.not_lt_zero j)⟩
        · rintro ⟨_, hmin⟩
          cases i with
          | zero => rfl
          | succ i' =>
            obtain ⟨y, t, hy, hys, hne⟩ := hmin 0 (by omega)
            have : c = y := by simpa using hy
            subst this
            rw [hc] at hys
            have : s = t := by simpa using hys
            exact absurd (this ▸ hs') hne
      · have hs' : s ≠ ssid := fun h => hs ((os_strcmp_eq_zero _ _).2 h)
        rw [if_neg hs]
        cases i with
        | zero =>
          constructor
          · intro h
            cases hr : wifi_find_ssid_index ssid rest <;> simp [hr] at h
          · rintro ⟨⟨x, hx, hxs⟩, _⟩
            have : c = x := by simpa using hx
            subst this
            rw [hc] at hxs
            have : s = ssid := by simpa using hxs
            exact absurd this hs'
        | succ i' =>
          have hmap : (wifi_find_ssid_index ssid rest).map (fun i => i + 1) = some (i' + 1) ↔
              wifi_find_ssid_index ssid rest = some i' := by
            cases hr : wifi_find_ssid_index ssid rest <;> simp
          rw [hmap, ih i']
          constructor
          · rintro ⟨⟨x, hx, hxs⟩, hmin⟩
            refine ⟨⟨x, by simpa using hx, hxs⟩, ?_⟩
            intro j hj
            cases j with
            | zero => exact ⟨c, s, by simp, hc, hs'⟩
            | succ j' =>
              obtain ⟨y, t, hy, hys, hne⟩ := hmin j' (by omega)
              exact ⟨y, t, by simpa using hy, hys, hne⟩
          · rintro ⟨⟨x, hx, hxs⟩, hmin⟩
            refine ⟨⟨x, by simpa using hx, hxs⟩, ?_⟩
            intro j hj
            obtain ⟨y, t, hy, hys, hne⟩ := hmin (j + 1) (by omega)
            exact ⟨y, t, by simpa using hy, hys, hne⟩

theorem wifi_find_ssid_index_agrees (ssid : String) (cells : List WIFI_AP_raw) :
    (wifi_find_ssid_index ssid cells).bind (fun i => (registry_entries cells)[i]?) =
      wifi_find_ssid_loop ssid (registry_entries cells) := by
  induction cells with
  | nil => rfl
  | cons c rest ih =>
    unfold wifi_find_ssid_index registry_entries
    cases hc : c.ssid with
    | none => rfl
    | some s =>
      simp only
      unfold wifi_find_ssid_loop
      by_cases hs : os_strcmp s ssid = 0
      · simp [hs]
      · rw [if_neg hs, if_neg hs, ← ih]
        cases hr : wifi_find_ssid_index ssid rest <;> simp

theorem wifi_find_ssid_loop_none (ssid : String) (l : List WIFI_AP) :
    wifi_find_ssid_loop ssid l = none ↔ ∀ e ∈ l, e.ssid ≠ ssid := by
  have h := wifi_find_ssid_loop_isSome ssid l
  constructor
  · intro hn e he heq
    have := h.2 ⟨e, he, heq⟩
    rw [hn] at this
    simp at this
  · intro hall
    cases hf : wifi_find_ssid_loop ssid l with
    | none => rfl
    | some p =>
      obtain ⟨e, he, heq⟩ := h.1 (by rw [hf]; rfl)
      exact absurd heq (hall e he)

theorem wifi_find_ssid_index_none (ssid : String) (cells : List WIFI_AP_raw) :
    wifi_find_ssid_index ssid cells = none ↔
      wifi_find_ssid_loop ssid (registry_entries cells) = none := by
  induction cells with
  | nil => simp [wifi_find_ssid_index, registry_entries, wifi_find_ssid_loop]
  | cons c rest ih =>
    unfold wifi_find_ssid_index registry_entries
    cases hc : c.ssid with
    | none => simp [wifi_find_ssid_loop]
    | some s =>
      simp only
      unfold wifi_find_ssid_loop
      by_cases hs : os_strcmp s ssid = 0
      · simp [hs]
      · rw [if_neg hs, if_neg hs, ← ih]
        cases hr : wifi_find_ssid_index ssid rest <;> simp

/-- C24. Registry lookup returns the first exact match.  `wifi_find_ssid` is
the first entry of the registry whose ssid equals the given name: it returns
none exactly when no entry before the terminator has that ssid, and an entry
it returns stands at an index before which no entry has that ssid.  On the
array itself the function stops at offset `i` exactly when element `i` has
that ssid and every element before it has an ssid that is not NULL and
differs, so a duplicate further on is never returned; it returns NULL exactly
when no entry before the terminator has that ssid, and the element at the
offset is the entry the registry lookup returns. -/
theorem registry_lookup_first_match (g : Globals) (ssid : String) :
    wifi_find_ssid g ssid = first_exact_match g.wifi_list ssid ∧
    (wifi_find_ssid g ssid = none ↔ ∀ e ∈ g.wifi_list, e.ssid ≠ ssid) ∧
    (∀ p : WIFI_AP, wifi_find_ssid g ssid = some p →
      ∃ i : Nat, g.wifi_list[i]? = some p ∧ p.ssid = ssid ∧
        ∀ j < i, ∀ q : WIFI_AP, g.wifi_list[j]? = some q → q.ssid ≠ ssid) ∧
    (∀ (cells : List WIFI_AP_raw) (i : Nat),
      wifi_find_ssid_index ssid cells = some i ↔
        (∃ c : WIFI_AP_raw, cells[i]? = some c ∧ c.ssid = some ssid) ∧
        ∀ j < i, ∃ (c : WIFI_AP_raw) (s : String),
          cells[j]? = some c ∧ c.ssid = some s ∧ s ≠ ssid) ∧
    (∀ cells : List WIFI_AP_raw,
      (wifi_find_ssid_index ssid cells = none ↔
        ∀ e ∈ registry_entries cells, e.ssid ≠ ssid) ∧
      (g.wifi_list = registry_entries cells →
        (wifi_find_ssid_index ssid cells).bind (fun i => g.wifi_list[i]?) =
          wifi_find_ssid g ssid)) := by
  refine ⟨wifi_find_ssid_loop_eq_find ssid g.wifi_list, wifi_find_ssid_loop_none ssid g.wifi_list,
    wifi_find_ssid_loop_first ssid g.wifi_list, wifi_find_ssid_index_spec ssid, ?_⟩
  intro cells
  refine ⟨?_, ?_⟩
  · rw [wifi_find_ssid_index_none, wifi_find_ssid_loop_none]
  · intro hl
    unfold wifi_find_ssid
    rw [hl]
    exact wifi_find_ssid_index_agrees ssid cells

theorem registry_lookup_first_match_witness :
    wifi_find_ssid_index "cafe" sample_array = some 1 ∧
    (∃ c : WIFI_AP_raw, sample_array[1]? = some c ∧ c.ssid = some "cafe") ∧
    wifi_find_ssid_index "office" sample_array = none ∧
    wifi_find_ssid
      { sample_globals .ap_fixed_auto .wifi_scan .mesh_disabled with
        wifi_list := registry_entries sample_array } "cafe" =
      some { ssid := "cafe", psw := some "first" } :=
  have h := registry_lookup_first_match
    { sample_globals .ap_fixed_auto .wifi_scan .mesh_disabled with
      wifi_list := registry_entries sample_array } "cafe"
  have h2 := registry_lookup_first_match
    { sample_globals .ap_fixed_auto .wifi_scan .mesh_disabled with
      wifi_list := registry_entries sample_array } "office"
  have hidx : wifi_find_ssid_index "cafe" sample_array = some 1 := by decide
  ⟨hidx, ((h.2.2.2.1 sample_array 1).1 hidx).1,
   ((h2.2.2.2.2 sample_array).1).2 (by decide),
   h.1.trans (by decide)⟩

/-! ## C25 -/

theorem initial_states (g0 : Globals) (h0 : initial g0) :
    g0.WIFI_state ≠ .wifi_disconnect_done ∧ in_mesh_scan_cycle g0.WIFI_Mesh_state := by
  unfold in_mesh_scan_cycle
  rcases h0 with ⟨g, p1, p2, hw, rfl⟩ | ⟨g, list, hw, rfl⟩ | ⟨g, mode, ssid, pass, pfx, grp, hw, rfl⟩
  · cases p1 <;> simp [WIFI_Initialize]
  · simp [WIFI_InitializeEx]
  · cases mode <;> simp [WIFI_MeshInitialize, build_mesh_ap_ssid]

theorem station_never_disconnect_done (g : Globals) (env : Env)
    (hs : g.WIFI_state ≠ .wifi_disconnect_done) :
    (WIFI_Run_station g env).1.WIFI_state ≠ .wifi_disconnect_done := by
  unfold WIFI_Run_station
  cases hst : g.WIFI_state
  case wifi_disconnect_done => exact absurd hst hs
  case wifi_connect =>
    cases hm : g.wifi.m_WIFIMode <;> simp [do_wifi_connect, hm]
  case wifi_connect_fail =>
    cases hm : g.wifi.m_WIFIMode <;> simp [do_wifi_connect, hm]
  case wifi_connect_in_progress =>
    simp only [do_wifi_check_eq]
    split_ifs <;> simp [hst]
  case wifi_ready =>
    simp only [do_wifi_check_eq]
    split_ifs <;> simp [hst]
  case wifi_disconnect =>
    cases hm : g.wifi.m_WIFIMode <;> simp [do_wifi_disconnect, hm, build_mesh_ap_ssid]
  case wifi_connect_done =>
    cases hm : g.wifi.m_WIFIMode <;> simp [do_wifi_connect_done, hm, build_mesh_ap_ssid]
  case wifi_scan_fail =>
    split_ifs <;> simp [do_wifi_scan, hst]
  case wifi_scan_done =>
    cases hb : g.wifi_best_ssid <;> simp [do_wifi_scan_done, hb]
  all_goals simp [do_wifi_scan, hst]

theorem scan_done_callback_state (g : Globals) (arg : List bss_info) (status : STATUS) :
    (scan_done_callback g arg status).WIFI_state =
      if status = .OK then .wifi_scan_done else .wifi_scan_fail := by
  unfold scan_done_callback
  cases status <;> by_cases h : g.WIFI_Mesh_state = .mesh_disabled <;> simp [h]

theorem step_never_disconnect_done (g : Globals) (e : Event)
    (hs : g.WIFI_state ≠ .wifi_disconnect_done) :
    (step g e).WIFI_state ≠ .wifi_disconnect_done := by
  cases e with
  | poll env =>
    simp only [step]
    rw [(WIFI_Run_station_part g env).1]
    exact station_never_disconnect_done g env hs
  | scan_done arg status =>
    simp only [step]
    rw [scan_done_callback_state]
    split_ifs <;> simp
  | connect => simp [step, WIFI_connect]
  | disconnect => simp [step, WIFI_disconnect]
  | set_callback a b c => simpa [step, WIFI_SetCallback] using hs

theorem run_events_never_disconnect_done (events : List Event) :
    ∀ g : Globals, g.WIFI_state ≠ .wifi_disconnect_done →
      (run_events g events).WIFI_state ≠ .wifi_disconnect_done := by
  induction events with
  | nil => intro g h; simpa [run_events] using h
  | cons e rest ih =>
    intro g h
    simp only [run_events]
    exact ih _ (step_never_disconnect_done g e h)

theorem disconnect_in_progress_step (g : Globals) (env : Env)
    (hs : g.WIFI_state = .wifi_disconnect_in_progress) :
    (WIFI_Run g env).st.WIFI_state = .wifi_disconnect_in_progress ∧
    (WIFI_Run_station g env).2 = [] := by
  have hstep : WIFI_Run_station g env = (g, []) := by simp [WIFI_Run_station, hs]
  exact ⟨by rw [(WIFI_Run_station_part g env).1, hstep]; exact hs, by rw [hstep]⟩

theorem disconnect_in_progress_run_polls (envs : List Env) :
    ∀ g : Globals, g.WIFI_state = .wifi_disconnect_in_progress →
      (run_polls g envs).WIFI_state = .wifi_disconnect_in_progress := by
  induction envs with
  | nil => intro g h; simpa [run_polls] using h
  | cons env rest ih =>
    intro g h
    simp only [run_polls]
    exact ih _ (disconnect_in_progress_step g env h).1

/-- C25. The on-disconnect callback is unreachable.  From the statics any
initializer leaves, after every sequence of polls, scan notifications,
`WIFI_SetCallback`, `WIFI_connect` and `WIFI_disconnect` calls, the station
state is not `wifi_disconnect_done`, and a poll made there never invokes
on-disconnect.  After `WIFI_disconnect` the next poll leaves
`wifi_disconnect_in_progress`, and every further poll leaves that state as it
is and its station switch sends nothing. -/
theorem on_disconnect_is_unreachable (g0 : Globals) (h0 : initial g0) (events : List Event) :
    (run_events g0 events).WIFI_state ≠ .wifi_disconnect_done ∧
    (∀ env : Env, on_disconnect_calls (WIFI_Run (run_events g0 events) env).trace = []) ∧
    (∀ (env : Env) (later : List Env) (env' : Env),
      (WIFI_Run (WIFI_disconnect (run_events g0 events)).st env).st.WIFI_state =
        .wifi_disconnect_in_progress ∧
      (run_polls (WIFI_Run (WIFI_disconnect (run_events g0 events)).st env).st
        later).WIFI_state = .wifi_disconnect_in_progress ∧
      (WIFI_Run_station (run_polls (WIFI_Run (WIFI_disconnect (run_events g0 events)).st
        env).st later) env').2 = []) := by
  have hinv := run_events_never_disconnect_done events g0 (initial_states g0 h0).1
  refine ⟨hinv, ?_, ?_⟩
  · intro env
    rw [on_disconnect_calls_run, on_disconnect_calls_station_other _ env hinv]
  · intro env later env'
    have h1 : (WIFI_Run (WIFI_disconnect (run_events g0 events)).st env).st.WIFI_state =
        .wifi_disconnect_in_progress := by
      rw [(WIFI_Run_station_part _ env).1]
      exact (station_disconnect_step _ env rfl).1
    have h2 := disconnect_in_progress_run_polls later _ h1
    exact ⟨h1, h2, (disconnect_in_progress_step _ env' h2).2⟩

theorem on_disconnect_is_unreachable_witness :
    initial (WIFI_Initialize (sample_globals .mesh_leaf .wifi_disconnect_done .mesh_connect)
      (some "home") (some "secret") sample_hwaddr).st ∧
    (run_events (WIFI_Initialize (sample_globals .mesh_leaf .wifi_disconnect_done .mesh_connect)
      (some "home") (some "secret") sample_hwaddr).st events_with_disconnect).WIFI_state =
        .wifi_disconnect_in_progress ∧
    on_disconnect_calls (WIFI_Run (run_events (WIFI_Initialize
      (sample_globals .mesh_leaf .wifi_disconnect_done .mesh_connect)
      (some "home") (some "secret") sample_hwaddr).st events_with_disconnect)
      (env_all_expired STATION_IDLE)).trace = [] :=
  have hi : initial (WIFI_Initialize
      (sample_globals .mesh_leaf .wifi_disconnect_done .mesh_connect)
      (some "home") (some "secret") sample_hwaddr).st :=
    Or.inl ⟨_, _, _, _, rfl⟩
  ⟨hi, by decide,
   (on_disconnect_is_unreachable _ hi events_with_disconnect).2.1
     (env_all_expired STATION_IDLE)⟩

/-! ## C26 -/

theorem mesh_switch_cycle (g : Globals) (env : Env)
    (h : in_mesh_scan_cycle g.WIFI_Mesh_state) :
    in_mesh_scan_cycle (WIFI_Run_mesh g env).1.WIFI_Mesh_state ∧
    ((g.WIFI_Mesh_state = .mesh_connect ∨ g.WIFI_Mesh_state = .mesh_scan_done) →
      (WIFI_Run_mesh g env).1.WIFI_Mesh_state = .mesh_scan_in_progress) := by
  unfold in_mesh_scan_cycle at h ⊢
  rcases h with h | h | h | h | h
  · by_cases hd : g.WIFI_state = .wifi_disabled <;> simp [WIFI_Run_mesh, h, hd]
  all_goals simp [WIFI_Run_mesh, h, do_wifi_mesh_connect]

theorem poll_mesh_cycle (g : Globals) (env : Env) (h : in_mesh_scan_cycle g.WIFI_Mesh_state) :
    in_mesh_scan_cycle (WIFI_Run g env).st.WIFI_Mesh_state ∧
    ((g.WIFI_Mesh_state = .mesh_connect ∨ g.WIFI_Mesh_state = .mesh_scan_done) →
      (WIFI_Run g env).st.WIFI_Mesh_state = .mesh_scan_in_progress) := by
  have hs := WIFI_Run_station_mesh_state g env
  have := mesh_switch_cycle (WIFI_Run_station g env).1 env (by rw [hs]; exact h)
  rw [hs] at this
  exact this

theorem scan_done_callback_mesh_state (g : Globals) (arg : List bss_info) (status : STATUS) :
    (scan_done_callback g arg status).WIFI_Mesh_state =
      if g.WIFI_Mesh_state = .mesh_disabled then .mesh_disabled else .mesh_scan_done := by
  unfold scan_done_callback
  cases status <;> by_cases h : g.WIFI_Mesh_state = .mesh_disabled <;> simp [h]

theorem step_mesh_cycle (g : Globals) (e : Event) (h : in_mesh_scan_cycle g.WIFI_Mesh_state) :
    in_mesh_scan_cycle (step g e).WIFI_Mesh_state := by
  cases e with
  | poll env => exact (poll_mesh_cycle g env h).1
  | scan_done arg status =>
    simp only [step]
    rw [scan_done_callback_mesh_state]
    unfold in_mesh_scan_cycle
    split_ifs <;> simp
  | connect => simpa [step, WIFI_connect] using h
  | disconnect => simpa [step, WIFI_disconnect] using h
  | set_callback a b c => simpa [step, WIFI_SetCallback] using h

theorem run_events_mesh_cycle (events : List Event) :
    ∀ g : Globals, in_mesh_scan_cycle g.WIFI_Mesh_state →
      in_mesh_scan_cycle (run_events g events).WIFI_Mesh_state := by
  induction events with
  | nil => intro g h; simpa [run_events] using h
  | cons e rest ih =>
    intro g h
    simp only [run_events]
    exact ih _ (step_mesh_cycle g e h)

/-- C26. The mesh machine only ever cycles through scanning.  From the statics
any initializer leaves, after every sequence of polls, scan notifications and
owner calls, the mesh state is one of idle, `mesh_connect`,
`mesh_scan_in_progress`, `mesh_scan_done` and `mesh_disabled`, hence none of
`mesh_connect_in_progress`, `mesh_connect_done` and `mesh_connect_fail`; and
a poll made there in `mesh_connect` or `mesh_scan_done` ends in
`mesh_scan_in_progress`. -/
theorem mesh_only_cycles_through_scanning (g0 : Globals) (h0 : initial g0)
    (events : List Event) :
    in_mesh_scan_cycle (run_events g0 events).WIFI_Mesh_state ∧
    (run_events g0 events).WIFI_Mesh_state ≠ .mesh_connect_in_progress ∧
    (run_events g0 events).WIFI_Mesh_state ≠ .mesh_connect_done ∧
    (run_events g0 events).WIFI_Mesh_state ≠ .mesh_connect_fail ∧
    (∀ env : Env,
      ((run_events g0 events).WIFI_Mesh_state = .mesh_connect ∨
        (run_events g0 events).WIFI_Mesh_state = .mesh_scan_done) →
      (WIFI_Run (run_events g0 events) env).st.WIFI_Mesh_state = .mesh_scan_in_progress) := by
  have hinv := run_events_mesh_cycle events g0 (initial_states g0 h0).2
  have hcases := hinv
  unfold in_mesh_scan_cycle at hcases
  refine ⟨hinv, ?_, ?_, ?_, fun env h => (poll_mesh_cycle _ env hinv).2 h⟩
  all_goals
    intro hbad
    rw [hbad] at hcases
    simp at hcases

theorem mesh_only_cycles_through_scanning_witness :
    initial mesh_leaf_initial ∧
    (run_events mesh_leaf_initial events_of_mesh_leaf).WIFI_Mesh_state = .mesh_scan_done ∧
    (WIFI_Run (run_events mesh_leaf_initial events_of_mesh_leaf)
      (env_all_expired STATION_GOT_IP)).st.WIFI_Mesh_state = .mesh_scan_in_progress :=
  have hi : initial mesh_leaf_initial := Or.inr (Or.inr ⟨_, _, _, _, _, _, _, rfl⟩)
  have hm : (run_events mesh_leaf_initial events_of_mesh_leaf).WIFI_Mesh_state =
      .mesh_scan_done := by decide
  ⟨hi, hm,
   (mesh_only_cycles_through_scanning mesh_leaf_initial hi events_of_mesh_leaf).2.2.2.2
     (env_all_expired STATION_GOT_IP) (Or.inr hm)⟩

/-! ## C27 -/

theorem scan_loop_append (g : Globals) (l1 l2 : List bss_info) :
    ∀ (r : Int) (w : Option WIFI_AP),
      scan_loop g (l1 ++ l2) (r, w) = scan_loop g l2 (scan_loop g l1 (r, w)) := by
  induction l1 with
  | nil => intro r w; simp [scan_loop_nil]
  | cons b rest ih =>
    intro r w
    rw [List.cons_append, scan_loop_cons, scan_loop_cons]
    split_ifs
    · exact ih _ _
    · exact ih _ _

theorem scan_loop_earliest_strongest (g : Globals) (pre post : List bss_info) (b : bss_info)
    (w : Option WIFI_AP) (hk : known g b.ssid) (hr : -127 < b.rssi)
    (hpre : ∀ x ∈ pre, known g x.ssid → x.rssi < b.rssi)
    (hpost : ∀ x ∈ post, known g x.ssid → x.rssi ≤ b.rssi) :
    scan_loop g (pre ++ b :: post) (-127, w) = (b.rssi, wifi_find_ssid g b.ssid) := by
  rw [scan_loop_append]
  obtain ⟨_, _, h3⟩ := scan_loop_spec g pre (-127) w
  have hsome : (wifi_find_ssid g b.ssid).isSome = true := (wifi_find_ssid_isSome g b.ssid).2 hk
  have hafter : ∀ (r1 : Int) (w1 : Option WIFI_AP), r1 < b.rssi →
      scan_loop g (b :: post) (r1, w1) = (b.rssi, wifi_find_ssid g b.ssid) := by
    intro r1 w1 hlt
    rw [scan_loop_cons, if_pos ⟨hsome, hlt⟩]
    obtain ⟨_, _, h3'⟩ := scan_loop_spec g post b.rssi (wifi_find_ssid g b.ssid)
    rcases h3' with h | ⟨x, hx, hkx, hlt', _⟩
    · exact h
    · have := hpost x hx hkx
      omega
  rcases h3 with h | ⟨x, hx, hkx, _, heq⟩
  · rw [h]
    exact hafter _ _ hr
  · rw [heq]
    exact hafter _ _ (hpre x hx hkx)

/-- C27. Equal signal strengths are broken by scan order.  In a successful
scan notification, when a known network stronger than -127 is preceded in the
result list only by known networks that are strictly weaker and followed
only by known networks that are at most as strong, the scan winner is the
registry entry found for that network: among known networks that share the
greatest strength the earliest in the list wins.  A known network whose
strength only equals the running best does not replace it. -/
theorem equal_strengths_broken_by_scan_order (g : Globals) (pre post : List bss_info)
    (b : bss_info) (hk : known g b.ssid) (hr : -127 < b.rssi)
    (hpre : ∀ x ∈ pre, known g x.ssid → x.rssi < b.rssi)
    (hpost : ∀ x ∈ post, known g x.ssid → x.rssi ≤ b.rssi) :
    (scan_done_callback g (pre ++ b :: post) .OK).wifi_best_ssid = wifi_find_ssid g b.ssid ∧
    (wifi_find_ssid g b.ssid).isSome = true ∧
    (∀ (x : bss_info) (l : List bss_info) (w : Option WIFI_AP),
      scan_loop g (x :: l) (x.rssi, w) = scan_loop g l (x.rssi, w)) := by
  refine ⟨?_, (wifi_find_ssid_isSome g b.ssid).2 hk, ?_⟩
  · rw [scan_done_callback_OK_best,
      scan_loop_earliest_strongest g pre post b g.wifi_best_ssid hk hr hpre hpost]
  · intro x l w
    rw [scan_loop_cons, if_neg (fun h => absurd h.2 (lt_irrefl _))]

theorem equal_strengths_broken_by_scan_order_witness :
    net_home_tie.rssi = net_cafe_tie.rssi ∧
    (scan_done_callback (sample_globals .ap_fixed_auto .wifi_scan_in_progress .mesh_disabled)
      ([net_guest] ++ net_home_tie :: [net_cafe_tie, net_home]) .OK).wifi_best_ssid =
      some { ssid := "home", psw := some "secret" } ∧
    (scan_done_callback (sample_globals .ap_fixed_auto .wifi_scan_in_progress .mesh_disabled)
      ([net_guest] ++ net_cafe_tie :: [net_home_tie, net_home]) .OK).wifi_best_ssid =
      some { ssid := "cafe", psw := some "latte" } :=
  ⟨rfl,
   (equal_strengths_broken_by_scan_order
      (sample_globals .ap_fixed_auto .wifi_scan_in_progress .mesh_disabled)
      [net_guest] [net_cafe_tie, net_home] net_home_tie (by decide) (by decide) (by decide)
      (by decide)).1.trans (by decide),
   (equal_strengths_broken_by_scan_order
      (sample_globals .ap_fixed_auto .wifi_scan_in_progress .mesh_disabled)
      [net_guest] [net_home_tie, net_home] net_cafe_tie (by decide) (by decide) (by decide)
      (by decide)).1.trans (by decide)⟩

end Wifi
